import Mathlib

/-!
# Verification of the adaptive churn-prediction core

Shallow embedding, in Lean 4, of the schema-mapping / validation /
signal-detection core of the ChurnAI-Model repository
(`src/config/schema_config.py`, `src/mappers/column_mapper.py`,
`src/validators/schema_validator.py`, `src/recommender/signal_detector.py`,
`src/recommender/recommender.py`, `src/pipeline/preprocessor.py`,
`src/pipeline/model_pipeline.py`, `src/pipeline/smart_pipeline.py`).

Modelling conventions:
* pandas cell values are `Value` (a rational number, a string, or NaN/None);
  a DataFrame is a list of named columns of equal length.
* Python floats are modelled as rationals `ℚ` (every numeric literal the
  code compares against is an exact decimal).
* A Python function that can raise is embedded with result type
  `Except String _`; a function that cannot raise is embedded total.
* Human-readable message strings that interpolate numbers use a plain
  rational rendering (`ratStr`) in place of Python float formatting
  (`:.1f`, `:.2f`, `:.1%`); the structure and the non-numeric text of each
  message follow the source.
* External library internals (sklearn transformers/classifiers, the
  optional LLM collaborator) are collaborators outside this repository:
  the fitted transformer and classifier are modelled as opaque function
  fields of the corresponding state records, and the LLM branch is
  modelled unavailable (`llm_available = False`, the default when no API
  key is configured), matching the deterministic no-collaborator path.
-/

/-- A pandas cell value: numeric, string, or missing (NaN/None). -/
inductive Value where
  | num (q : ℚ)
  | str (s : String)
  | null
deriving Repr, DecidableEq

namespace Value

/-- `pd.isna` on a scalar cell. -/
def isna : Value → Bool
  | .null => true
  | _ => false

/-- Is this cell a Python string? -/
def isStr : Value → Bool
  | .str _ => true
  | _ => false

end Value

/-- Plain rendering of a rational as a string (stands in for Python float
formatting in human-readable messages; integer-valued rationals render
without a denominator). -/
def ratStr (q : ℚ) : String :=
  if q.den = 1 then toString q.num else toString q.num ++ "/" ++ toString q.den

/-- `str(v)` for a non-null cell, as pandas `astype(str)` produces it for
string cells and integer-dtype numeric cells (numeric-to-text rendering of
non-integer floats is abstracted to the same rational rendering). -/
def Value.pyStr : Value → String
  | .num q => ratStr q
  | .str s => s
  | .null => "nan"

/-- Lowercase a single character (ASCII, as all column names and keywords
in the repository are ASCII). -/
def lowerChar (c : Char) : Char :=
  if 65 ≤ c.toNat ∧ c.toNat ≤ 90 then Char.ofNat (c.toNat + 32) else c

/-- `s.lower()` on the character list of a string. -/
def lowerChars (s : String) : List Char :=
  s.data.map lowerChar

/-- `s.lower()` as a string. -/
def pyLower (s : String) : String :=
  ⟨lowerChars s⟩

/-- Python substring containment `needle in hay` over character lists. -/
def isInfixB (needle hay : List Char) : Bool :=
  match hay with
  | [] => needle.isEmpty
  | _ :: t => needle.isPrefixOf hay || isInfixB needle t

/-- Python substring containment `needle in hay` on strings. -/
def strContains (hay needle : String) : Bool :=
  isInfixB needle.data hay.data

/-- Order-preserving deduplication (pandas `Series.unique`): keep the
first occurrence of each value. -/
def uniqueListAux {α} [DecidableEq α] (seen : List α) : List α → List α
  | [] => []
  | x :: xs =>
      if x ∈ seen then uniqueListAux seen xs
      else x :: uniqueListAux (x :: seen) xs

/-- Order-preserving deduplication (pandas `Series.unique`). -/
def uniqueList {α} [DecidableEq α] (l : List α) : List α :=
  uniqueListAux [] l

/-- ASCII digit test. -/
def isDigitChar (c : Char) : Bool :=
  48 ≤ c.toNat && c.toNat ≤ 57

/-- Digit value of a digit character. -/
def digitVal (c : Char) : ℕ := c.toNat - 48

/-- Value of a digit list read left to right. -/
def digitsVal (l : List Char) : ℕ :=
  l.foldl (fun acc c => acc * 10 + digitVal c) 0

/-- Decimal fraction value of a digit list (digits after the point). -/
def fracVal (l : List Char) : ℚ :=
  (digitsVal l : ℚ) / ((10 : ℚ) ^ l.length)

/-- Parse an unsigned decimal literal `digits[.digits]`. -/
def parseUnsigned (l : List Char) : Option ℚ :=
  let intPart := l.takeWhile isDigitChar
  let rest := l.dropWhile isDigitChar
  match rest with
  | [] => if intPart.isEmpty then none else some (digitsVal intPart : ℚ)
  | '.' :: fracs =>
      if fracs.all isDigitChar ∧ ¬(intPart.isEmpty ∧ fracs.isEmpty) then
        some ((digitsVal intPart : ℚ) + fracVal fracs)
      else none
  | _ => none

/-- `pd.to_numeric(·, errors="coerce")` on a single string: parse an
optionally signed decimal literal, otherwise missing.  (Exponent notation
and exotic float spellings are abstracted away: the repository's numeric
cells are plain decimals.) -/
def strToNumeric (s : String) : Option ℚ :=
  match s.data with
  | '-' :: rest => (parseUnsigned rest).map (fun q => -q)
  | '+' :: rest => parseUnsigned rest
  | l => parseUnsigned l

/-- `pd.to_numeric(·, errors="coerce")` on a cell (`coerce` turns
unparseable values into NaN, here `none`). -/
def toNumericCoerce : Value → Option ℚ
  | .num q => some q
  | .str s => strToNumeric s
  | .null => none

/-- Is a string whitespace-only (the `r"^\s*$"` pattern the code replaces
with NaN before numeric coercion)? -/
def isBlankStr (s : String) : Bool :=
  s.data.all (fun c => c = ' ' || c = '\t' || c = '\n' || c = '\r')

/-- The source's coercion idiom
`pd.to_numeric(col.replace(r"^\s*$", nan, regex=True), errors="coerce")`
applied to one cell. -/
def blankThenNumeric (v : Value) : Option ℚ :=
  match v with
  | .str s => if isBlankStr s then none else strToNumeric s
  | .num q => some q
  | .null => none

/-- Insertion into a sorted list of rationals. -/
def insertSorted (x : ℚ) : List ℚ → List ℚ
  | [] => [x]
  | y :: ys => if x ≤ y then x :: y :: ys else y :: insertSorted x ys

/-- Ascending insertion sort (stands in for the sort inside pandas
`quantile`). -/
def sortQ : List ℚ → List ℚ
  | [] => []
  | x :: xs => insertSorted x (sortQ xs)

/-- pandas `Series.quantile(q)` with the default linear interpolation,
over the non-missing values `xs`; `none` on an empty series. -/
def quantileQ (xs : List ℚ) (q : ℚ) : Option ℚ :=
  match sortQ xs with
  | [] => none
  | y :: ys =>
      let s := y :: ys
      let n := s.length
      let pos : ℚ := q * ((n : ℚ) - 1)
      let i : ℕ := pos.floor.toNat
      let frac : ℚ := pos - pos.floor
      let a := s.getD i 0
      let b := s.getD (min (i + 1) (n - 1)) 0
      some (a + (b - a) * frac)

/-- pandas `Series.median()` (= `quantile(0.5)`). -/
def medianQ (xs : List ℚ) : Option ℚ :=
  quantileQ xs (1/2)

/-!
## Schema catalog (`src/config/schema_config.py`)
-/

/-- `ColumnType` enumeration: abstract column roles. -/
inductive ColumnType where
  | ID | TARGET | TENURE | COST_MONTHLY | COST_TOTAL | CONTRACT
  | CATEGORICAL | BINARY | NUMERIC
deriving Repr, DecidableEq

/-- The `.value` string of each enum member. -/
def ColumnType.value : ColumnType → String
  | .ID => "id"
  | .TARGET => "target"
  | .TENURE => "tenure"
  | .COST_MONTHLY => "cost_monthly"
  | .COST_TOTAL => "cost_total"
  | .CONTRACT => "contract"
  | .CATEGORICAL => "categorical"
  | .BINARY => "binary"
  | .NUMERIC => "numeric"

/-- `ColumnType(type_name)`: parse a role string; `none` models the
`ValueError` branch. -/
def ColumnType.ofString (s : String) : Option ColumnType :=
  if s = "id" then some .ID
  else if s = "target" then some .TARGET
  else if s = "tenure" then some .TENURE
  else if s = "cost_monthly" then some .COST_MONTHLY
  else if s = "cost_total" then some .COST_TOTAL
  else if s = "contract" then some .CONTRACT
  else if s = "categorical" then some .CATEGORICAL
  else if s = "binary" then some .BINARY
  else if s = "numeric" then some .NUMERIC
  else none

/-- `DEFAULT_SCHEMA` keyword lists, flattened to (role, keyword) pairs in
the dict's insertion order — the order `_keyword_match` iterates in. -/
def schemaKeywordPairs : List (ColumnType × String) :=
  [(.ID, "id"), (.ID, "customer_id"), (.ID, "customerid"), (.ID, "user_id"),
   (.ID, "userid"), (.ID, "account"),
   (.TARGET, "churn"), (.TARGET, "churned"), (.TARGET, "cancelled"),
   (.TARGET, "left"), (.TARGET, "attrition"), (.TARGET, "exit"),
   (.TARGET, "target"),
   (.TENURE, "tenure"), (.TENURE, "months"), (.TENURE, "duration"),
   (.TENURE, "time"), (.TENURE, "age"), (.TENURE, "lifetime"),
   (.TENURE, "subscription_length"),
   (.COST_MONTHLY, "monthly"), (.COST_MONTHLY, "charge"),
   (.COST_MONTHLY, "fee"), (.COST_MONTHLY, "price"), (.COST_MONTHLY, "cost"),
   (.COST_MONTHLY, "mrr"), (.COST_MONTHLY, "recurring"),
   (.COST_TOTAL, "total"), (.COST_TOTAL, "cumulative"),
   (.COST_TOTAL, "lifetime_value"), (.COST_TOTAL, "ltv"),
   (.COST_TOTAL, "revenue"),
   (.CONTRACT, "contract"), (.CONTRACT, "plan"), (.CONTRACT, "subscription"),
   (.CONTRACT, "commitment"), (.CONTRACT, "term")]

/-- `DEFAULT_SCHEMA[TARGET].value_hints`. -/
def targetValueHints : List String :=
  ["yes", "no", "0", "1", "true", "false"]

/-!
## DataFrame model
-/

/-- A pandas DataFrame: named columns of equal length, in column order. -/
structure DataFrame where
  cols : List (String × List Value)
deriving Repr, DecidableEq

namespace DataFrame

/-- Column names, in order (`df.columns`). -/
def columns (df : DataFrame) : List String :=
  df.cols.map (·.1)

/-- `len(df)` — number of rows (columns have equal length; the first
column is representative, and 0 for a column-less frame). -/
def nRows (df : DataFrame) : ℕ :=
  ((df.cols.head?).map (fun c => c.2.length)).getD 0

/-- `df[name]` — the values of a named column (empty when absent). -/
def col (df : DataFrame) (name : String) : List Value :=
  ((df.cols.lookup name).getD [])

/-- `df.size` — number of cells. -/
def size (df : DataFrame) : ℕ :=
  df.nRows * df.cols.length

/-- Row `i` as a list of cells in column order. -/
def row (df : DataFrame) (i : ℕ) : List Value :=
  df.cols.map (fun c => c.2.getD i .null)

/-- All rows, in order (`df.iterrows()`), each a named record. -/
def rows (df : DataFrame) : List (List (String × Value)) :=
  (List.range df.nRows).map (fun i => df.cols.map (fun c => (c.1, c.2.getD i .null)))

/-- Total count of missing cells (`df.isna().sum().sum()`). -/
def totalMissing (df : DataFrame) : ℕ :=
  (df.cols.map (fun c => c.2.countP (fun v => v.isna))).sum

/-- `df.duplicated().sum()` — rows equal to an earlier row. -/
def dupCountAux : List (List Value) → List (List Value) → ℕ
  | _, [] => 0
  | seen, r :: rest =>
      (if r ∈ seen then 1 else 0) + dupCountAux (r :: seen) rest

/-- `df.duplicated().sum()`. -/
def dupCount (df : DataFrame) : ℕ :=
  dupCountAux [] ((List.range df.nRows).map df.row)

/-- pandas `is_numeric_dtype` for a column in this model: a column holds a
numeric dtype iff no cell is a string (missing cells are float NaN). -/
def isNumericDtype (vs : List Value) : Bool :=
  vs.all (fun v => !v.isStr)

end DataFrame

/-!
## Column mapper (`src/mappers/column_mapper.py`)

The LLM branch of `_auto_detect_mappings` is guarded by
`self.llm_available`, which is `False` in the default configuration
(no API key / library); the embedding models that deterministic path.
-/

/-- `ColumnMapping` dataclass. -/
structure ColumnMapping where
  source_column : String
  target_type : ColumnType
  confidence : ℚ
  detection_method : String
  notes : String := ""
deriving Repr, DecidableEq

/-- `MappingResult` dataclass (`mappings` is a Python dict: association
list with unique keys in insertion order; `llm_insights` is always absent
on the modelled no-LLM path). -/
structure MappingResult where
  mappings : List (String × ColumnMapping) := []
  unmapped_columns : List String := []
  warnings : List String := []
deriving Repr, DecidableEq

/-- Python `dict` update: replace in place if the key exists, else append. -/
def dictInsert {α} (key : String) (val : α) : List (String × α) → List (String × α)
  | [] => [(key, val)]
  | (k, v) :: rest =>
      if k = key then (k, val) :: rest else (k, v) :: dictInsert key val rest

/-- Normalized column name used by `_keyword_match`:
`column_name.lower().replace("_", " ").replace("-", " ")`. -/
def normalizeName (name : String) : List Char :=
  (lowerChars name).map (fun c => if c = '_' ∨ c = '-' then ' ' else c)

/-- The substring test `keyword in col_lower or col_lower in keyword`. -/
def kwConsidered (norm : List Char) (kw : String) : Bool :=
  isInfixB kw.data norm || isInfixB norm kw.data

/-- The score the loop body computes for one considered keyword:
`len(keyword) / max(len(col_lower), len(keyword))`, overridden to `1.0`
on exact match.  (`mkRat a b` is the rational `a / b`; this
kernel-computable form is used for the mapper's rational literals so that
concrete runs evaluate, and it is proved equal to the `/` form in the
keyword-scoring theorem.) -/
def kwScore (norm : List Char) (kw : String) : ℚ :=
  if kw.data = norm then 1
  else mkRat kw.length (max norm.length kw.length)

/-- The keyword loop of `_keyword_match`: track the best-scoring
(role, keyword, score) triple; a candidate replaces the best only when its
score is strictly greater (so the first of equal scores wins). -/
def scanAux (norm : List Char) :
    List (ColumnType × String) → Option (ColumnType × String × ℚ) →
    Option (ColumnType × String × ℚ)
  | [], best => best
  | p :: rest, best =>
      if kwConsidered norm p.2 then
        let score := kwScore norm p.2
        let bestScore := match best with
          | none => 0
          | some b => b.2.2
        if score > bestScore then scanAux norm rest (some (p.1, p.2, score))
        else scanAux norm rest best
      else scanAux norm rest best

/-- The best keyword hit for a column name (over the whole
`DEFAULT_SCHEMA` keyword catalog, in iteration order). -/
def keywordScan (name : String) : Option (ColumnType × String × ℚ) :=
  scanAux (normalizeName name) schemaKeywordPairs none

/-- The `target_keywords` list of the value-hint fallback inside
`_keyword_match` (note the extra `"label"` relative to the schema). -/
def fallbackTargetKeywords : List String :=
  ["churn", "churned", "cancelled", "left", "attrition", "exit", "target", "label"]

/-- `series.dropna().astype(str).str.lower().unique()`. -/
def uniqueLowerStrs (series : List Value) : List String :=
  uniqueList ((series.filter (fun v => !v.isna)).map (fun v => pyLower v.pyStr))

/-- The value-hint fallback of `_keyword_match`: only when no keyword
matched, only for target-candidate names, assign `TARGET` at 0.85 when at
least half the distinct case-folded values are target value hints. -/
def valueHintFallback (name : String) (series : List Value) : Option ColumnMapping :=
  let norm := normalizeName name
  let isTargetCandidate := fallbackTargetKeywords.any (fun kw => isInfixB kw.data norm)
  if isTargetCandidate then
    let uniqueVals := uniqueLowerStrs series
    let nMatches := (uniqueVals.filter (fun v => targetValueHints.contains v)).length
    if (nMatches : ℚ) ≥ (uniqueVals.length : ℚ) * mkRat 1 2 then
      some { source_column := name, target_type := .TARGET,
             confidence := mkRat 85 100, detection_method := "value_hint",
             notes := "Values and name match target pattern" }
    else none
  else none

/-- `_keyword_match`: best keyword hit (confidence `min(score, 0.95)`),
else the target value-hint fallback. -/
def keywordMatch (name : String) (series : List Value) : Option ColumnMapping :=
  match keywordScan name with
  | some (t, kw, score) =>
      some { source_column := name, target_type := t,
             confidence := min score (mkRat 95 100),
             detection_method := "keyword",
             notes := "Matched keyword: " ++ kw }
  | none => valueHintFallback name series

/-- The `binary_patterns` list of `_type_inference`. -/
def binaryPatterns : List (List String) :=
  [["yes", "no"], ["0", "1"], ["true", "false"], ["y", "n"], ["1", "0"],
   ["yes", "no", ""]]

/-- Keywords the numeric branch of `_type_inference` looks for. -/
def costNameKeywords : List String :=
  ["charge", "price", "cost", "amount", "fee"]

/-- `_type_inference`: binary vocabulary, then non-negative numeric dtype,
then small-cardinality categorical. -/
def typeInference (name : String) (series : List Value) : Option ColumnMapping :=
  let uniqueVals := uniqueList (series.filter (fun v => !v.isna))
  let binaryHit :=
    if uniqueVals.length ≤ 3 then
      let strVals := uniqueVals.map (fun v => pyLower v.pyStr)
      binaryPatterns.any (fun pat => strVals.all (fun v => pat.contains v))
    else false
  if binaryHit then
    some { source_column := name, target_type := .BINARY,
           confidence := mkRat 8 10, detection_method := "type_inference",
           notes := "Binary values detected" }
  else
    let nums := series.filterMap toNumericCoerce
    let minNonneg := match sortQ nums with
      | [] => false
      | m :: _ => decide (0 ≤ m)
    if DataFrame.isNumericDtype series && minNonneg then
      let colLower := pyLower name
      if costNameKeywords.any (fun k => strContains colLower k) then
        some { source_column := name, target_type := .COST_MONTHLY,
               confidence := mkRat 6 10, detection_method := "type_inference",
               notes := "Numeric with cost-related name" }
      else
        some { source_column := name, target_type := .NUMERIC,
               confidence := mkRat 5 10, detection_method := "type_inference",
               notes := "Generic numeric column" }
    else if uniqueVals.length < 20 ∧ uniqueVals.length > 2 then
      some { source_column := name, target_type := .CATEGORICAL,
             confidence := mkRat 5 10, detection_method := "type_inference",
             notes := "Categorical with " ++ toString uniqueVals.length ++
                      " unique values" }
    else none

/-- `_auto_detect_mappings` on the no-LLM path: keyword match first, then
type inference, per column in order. -/
def autoDetectMappings (df : DataFrame) : MappingResult :=
  let mappings := df.cols.foldl
    (fun acc c =>
      match keywordMatch c.1 c.2 with
      | some m => acc ++ [(c.1, m)]
      | none =>
          match typeInference c.1 c.2 with
          | some m => acc ++ [(c.1, m)]
          | none => acc)
    []
  { mappings := mappings }

/-- An apostrophe, written by code point for quoting names in messages. -/
def sQuote : String := "\x27"

/-- The warning `_apply_manual_mappings` / `_merge_manual_mappings` emit
for an unknown role name. -/
def unknownTypeWarning (typeName colName : String) : String :=
  "Unknown type " ++ sQuote ++ typeName ++ sQuote ++ " for column " ++ sQuote ++ colName ++ sQuote

/-- The warning `_apply_manual_mappings` emits for an absent column. -/
def columnNotFoundWarning (colName : String) : String :=
  "Column " ++ sQuote ++ colName ++ sQuote ++ " not found in dataset"

/-- The loop body of `_apply_manual_mappings` for one (column, role)
pair: map it when the column exists and the role parses, else degrade to
a warning (the `ValueError` of `ColumnType(...)` is caught). -/
def applyManualStep (df : DataFrame) (result : MappingResult)
    (p : String × String) : MappingResult :=
  let colName := p.1
  let typeName := p.2
  if df.columns.contains colName then
    match ColumnType.ofString typeName with
    | some t =>
        let m : ColumnMapping :=
          { source_column := colName, target_type := t, confidence := 1,
            detection_method := "manual", notes := "User-provided mapping" }
        { result with mappings := dictInsert colName m result.mappings }
    | none =>
        { result with warnings := result.warnings ++
            [unknownTypeWarning typeName colName] }
  else
    { result with warnings := result.warnings ++
        [columnNotFoundWarning colName] }

/-- `_apply_manual_mappings`: build a fresh result from caller-supplied
(column, role-string) pairs. -/
def applyManualMappings (df : DataFrame) (manual : List (String × String)) :
    MappingResult :=
  manual.foldl (applyManualStep df) {}

/-- The loop body of `_merge_manual_mappings` for one (column, role)
pair: a parsed role overwrites any existing mapping, an unknown role
degrades to a warning. -/
def mergeManualStep (result : MappingResult) (p : String × String) :
    MappingResult :=
  match ColumnType.ofString p.2 with
  | some t =>
      let m : ColumnMapping :=
        { source_column := p.1, target_type := t, confidence := 1,
          detection_method := "manual", notes := "User override" }
      { result with mappings := dictInsert p.1 m result.mappings }
  | none =>
      { result with warnings := result.warnings ++
          [unknownTypeWarning p.2 p.1] }

/-- `_merge_manual_mappings`: overlay manual pairs onto an auto result
(manual wins); unknown roles degrade to warnings. -/
def mergeManualMappings (autoResult : MappingResult)
    (manual : List (String × String)) : MappingResult :=
  manual.foldl mergeManualStep autoResult

/-- Mapper mode argument. -/
inductive MapMode where
  | auto | manual | hybrid
deriving Repr, DecidableEq

/-- `ColumnMapper.map_columns` (no-LLM path): dispatch on mode, then fill
`unmapped_columns` with the dataset columns absent from the mapping dict. -/
def mapColumns (df : DataFrame) (mode : MapMode)
    (manual : Option (List (String × String)) := none) : MappingResult :=
  let result :=
    match mode, manual with
    | .manual, some m => applyManualMappings df m
    | .manual, none => autoDetectMappings df
    | .auto, _ => autoDetectMappings df
    | .hybrid, some m => mergeManualMappings (autoDetectMappings df) m
    | .hybrid, none => autoDetectMappings df
  let mappedCols := result.mappings.map (·.1)
  { result with
      unmapped_columns := df.columns.filter (fun c => !mappedCols.contains c) }

/-!
## Schema validator (`src/validators/schema_validator.py`)
-/

/-- `ValidationResult` dataclass. -/
structure ValidationResult where
  is_valid : Bool := true
  errors : List String := []
  warnings : List String := []
  mapping_result : Option MappingResult := none
  data_quality_score : ℚ := 0
deriving Repr, DecidableEq

/-- `SchemaValidator.REQUIRED_TYPES`. -/
def requiredTypes : List ColumnType := [.TARGET, .TENURE]

/-- `SchemaValidator.RECOMMENDED_TYPES`. -/
def recommendedTypes : List ColumnType := [.COST_MONTHLY, .CONTRACT]

/-- `DEFAULT_SCHEMA[t].description` (used in the missing-required error). -/
def schemaDescription : ColumnType → String
  | .ID => "Unique customer identifier"
  | .TARGET => "Churn indicator (target variable)"
  | .TENURE => "Duration of customer relationship"
  | .COST_MONTHLY => "Monthly/recurring charges"
  | .COST_TOTAL => "Total cumulative charges"
  | .CONTRACT => "Contract/commitment type"
  | _ => ""

/-- The blocking error for a missing required role. -/
def missingRequiredError (t : ColumnType) : String :=
  "Missing required column type: " ++ t.value ++ ". " ++
  "Please ensure your dataset has a column for " ++ sQuote ++
  schemaDescription t ++ sQuote

/-- The message for a missing recommended role. -/
def missingRecommendedMsg (t : ColumnType) : String :=
  "Recommended column type not found: " ++ t.value

/-- `_validate_target_column`: (errors, warnings) for the target series.
Rational division is total in Lean (`x / 0 = 0`), which silently covers
the zero-row frame on which Python would instead crash with a
`ZeroDivisionError`; every claim below concerns non-empty frames. -/
def validateTargetColumn (series : List Value) : List String × List String :=
  let missingPct : ℚ :=
    ((series.countP (fun v => v.isna) : ℚ) / (series.length : ℚ)) * 100
  let errors :=
    if missingPct > 0 then
      ["Target column has " ++ ratStr missingPct ++
       "% missing values. Target column must not have missing values."]
    else []
  let uniqueVals := uniqueList (series.filter (fun v => !v.isna))
  let warnings :=
    if uniqueVals.length > 2 then
      ["Target column has " ++ toString uniqueVals.length ++
       " unique values. Expected binary (0/1 or Yes/No)."]
    else []
  let warnings :=
    if uniqueVals.length = 2 then
      let nonNull := series.filter (fun v => !v.isna)
      let counts := uniqueVals.map (fun v => nonNull.count v)
      let minCount := match sortQ (counts.map (fun n => (n : ℚ))) with
        | [] => 0
        | m :: _ => m
      let minorityPct : ℚ := (minCount / (nonNull.length : ℚ)) * 100
      if minorityPct < 10 then
        warnings ++
        ["Severe class imbalance detected: minority class is only " ++
         ratStr minorityPct ++
         "%. Consider using techniques like SMOTE or class weights."]
      else warnings
    else warnings
  (errors, warnings)

/-- The straight-line scoring of `_check_data_quality`, as a function of
the overall missing-cell percentage and the duplicate-row count and
percentage: start at 100, subtract `min(30, pct)` above 20% missing,
`pct` in the (5, 20] band, `min(10, pct)` when duplicates exist, floor
at 0. -/
def qualityScore (missingPct : ℚ) (dupCount : ℕ) (dupPct : ℚ) : ℚ :=
  let score : ℚ := 100
  let score := if missingPct > 20 then score - min 30 missingPct
    else if missingPct > 5 then score - missingPct
    else score
  let score := if dupCount > 0 then score - min 10 dupPct else score
  max 0 score

/-- The warnings `_check_data_quality` emits alongside the score for the
missing-rate and duplicate checks. -/
def qualityBaseWarnings (missingPct : ℚ) (dupCount : ℕ) (dupPct : ℚ) :
    List String :=
  let w : List String := []
  let w := if missingPct > 20 then
      w ++ ["High missing value rate: " ++ ratStr missingPct ++
            "% of data is missing."]
    else if missingPct > 5 then
      w ++ ["Moderate missing values: " ++ ratStr missingPct ++
            "% of data is missing."]
    else w
  if dupCount > 0 then
    w ++ ["Found " ++ toString dupCount ++ " duplicate rows (" ++
          ratStr dupPct ++ "%)."]
  else w

/-- The numeric-role column types `_check_data_quality` inspects. -/
def qualityNumericTypes : List ColumnType :=
  [.COST_MONTHLY, .COST_TOTAL, .TENURE, .NUMERIC]

/-- The per-numeric-column warnings of `_check_data_quality`:
non-numeric-dtype columns get a coercion warning when more than 10% of
cells fail numeric coercion; numeric-dtype columns get a negative-value
warning and an IQR outlier warning.  None of these touch the score or the
error list. -/
def qualityNumericWarnings (df : DataFrame) (mapping : MappingResult) :
    List String :=
  mapping.mappings.foldl
    (fun w p =>
      let colName := p.1
      if qualityNumericTypes.contains p.2.target_type ∧
          df.columns.contains colName then
        let series := df.col colName
        if ¬DataFrame.isNumericDtype series then
          let coerced := series.map toNumericCoerce
          if (coerced.countP (fun o => o.isNone) : ℚ) >
              (df.nRows : ℚ) * (1/10) then
            w ++ ["Column " ++ sQuote ++ colName ++ sQuote ++
                  " mapped as numeric but contains non-numeric values."]
          else w
        else
          let nums := series.filterMap toNumericCoerce
          let w := if nums.any (fun q => q < 0) then
              w ++ ["Column " ++ sQuote ++ colName ++ sQuote ++
                    " contains negative values."]
            else w
          match quantileQ nums (1/4), quantileQ nums (3/4) with
          | some q1, some q3 =>
              let iqr := q3 - q1
              if iqr > 0 then
                let outliers := nums.countP
                  (fun x => x < q1 - 3 * iqr || x > q3 + 3 * iqr)
                if (outliers : ℚ) > (df.nRows : ℚ) * (1/20) then
                  w ++ ["Column " ++ sQuote ++ colName ++ sQuote ++ " has " ++
                        toString outliers ++ " potential outliers."]
                else w
              else w
          | _, _ => w
      else w)
    []

/-- `_check_data_quality`: (score, warnings). -/
def checkDataQuality (df : DataFrame) (mapping : MappingResult) :
    ℚ × List String :=
  let missingPct : ℚ := ((df.totalMissing : ℚ) / (df.size : ℚ)) * 100
  let dups := df.dupCount
  let dupPct : ℚ := ((dups : ℚ) / (df.nRows : ℚ)) * 100
  (qualityScore missingPct dups dupPct,
   qualityBaseWarnings missingPct dups dupPct ++
     qualityNumericWarnings df mapping)

/-- The small-dataset warning of `validate` (fires below 100 rows). -/
def smallDatasetWarning (n : ℕ) : String :=
  "Dataset has only " ++ toString n ++
  " rows. Predictions may be less reliable with small datasets."

/-- `result.is_valid = False; result.errors.append(e)` — the idiom every
blocking-error site of `validate` uses. -/
def addError (r : ValidationResult) (e : String) : ValidationResult :=
  { r with is_valid := false, errors := r.errors ++ [e] }

/-- `result.warnings.append(w)`. -/
def addWarning (r : ValidationResult) (w : String) : ValidationResult :=
  { r with warnings := r.warnings ++ [w] }

/-- Step 2 of `validate`, for one required role. -/
def checkRequiredStep (mappedTypes : List ColumnType) (r : ValidationResult)
    (t : ColumnType) : ValidationResult :=
  if mappedTypes.contains t then r else addError r (missingRequiredError t)

/-- Step 3 of `validate`, for one recommended role. -/
def checkRecommendedStep (mappedTypes : List ColumnType) (strict : Bool)
    (r : ValidationResult) (t : ColumnType) : ValidationResult :=
  if mappedTypes.contains t then r
  else if strict then addError r (missingRecommendedMsg t)
  else addWarning r (missingRecommendedMsg t)

/-- Step 4 of `validate`: extend with the target column's findings and
invalidate when it produced errors. -/
def applyTargetValidation (r : ValidationResult)
    (tv : List String × List String) : ValidationResult :=
  let r2 := { r with errors := r.errors ++ tv.1,
                     warnings := r.warnings ++ tv.2 }
  if tv.1.isEmpty then r2 else { r2 with is_valid := false }

/-- `SchemaValidator.validate`: resolve the mapping, check required and
recommended roles, validate the target column, score data quality, warn
on small frames. -/
def validate (df : DataFrame) (mappingResult : Option MappingResult := none)
    (strict : Bool := false) : ValidationResult :=
  let mapping := mappingResult.getD (mapColumns df .auto)
  let mappedTypes := mapping.mappings.map (fun p => p.2.target_type)
  let r0 : ValidationResult := { mapping_result := some mapping }
  let r1 := requiredTypes.foldl (checkRequiredStep mappedTypes) r0
  let r2 := recommendedTypes.foldl (checkRecommendedStep mappedTypes strict) r1
  let targetCols := (mapping.mappings.filter
    (fun p => p.2.target_type = ColumnType.TARGET)).map (·.1)
  let r3 := match targetCols.head? with
    | some tc => applyTargetValidation r2 (validateTargetColumn (df.col tc))
    | none => r2
  let q := checkDataQuality df mapping
  let r4 := { r3 with data_quality_score := q.1,
                      warnings := r3.warnings ++ q.2 }
  if df.nRows < 100 then addWarning r4 (smallDatasetWarning df.nRows) else r4

/-!
## Signal detector (`src/recommender/signal_detector.py`)
-/

/-- The heterogeneous `value` payload a `Signal` may carry. -/
inductive SigVal where
  | num (q : ℚ)
  | cell (v : Value)
  | strs (l : List String)
deriving Repr, DecidableEq

/-- The heterogeneous values of the detector's `thresholds` dict. -/
inductive ThVal where
  | num (q : ℚ)
  | strs (l : List String)
  | rates (l : List (String × ℚ))
deriving Repr, DecidableEq

/-- `Signal` dataclass. -/
structure Signal where
  signal_type : String
  description : String
  risk_level : String
  evidence : String
  column_involved : Option String := none
  value : Option SigVal := none
  threshold : Option ThVal := none
deriving Repr, DecidableEq

/-- `CustomerSignals` dataclass. -/
structure CustomerSignals where
  customer_id : Option String := none
  signals : List Signal := []
  overall_risk : String := "low"
  churn_probability : Option ℚ := none
deriving Repr, DecidableEq

/-- The `risk_levels` dict of `_update_overall_risk`
(`.get(s.risk_level, 1)` defaults unknown names to 1). -/
def riskRank (s : String) : ℕ :=
  if s = "low" then 1
  else if s = "medium" then 2
  else if s = "high" then 3
  else if s = "critical" then 4
  else 1

/-- The `reverse_map` dict of `_update_overall_risk` (total here: its
argument is always a rank in 1..4). -/
def riskOfRank (n : ℕ) : String :=
  if n = 1 then "low"
  else if n = 2 then "medium"
  else if n = 3 then "high"
  else if n = 4 then "critical"
  else "low"

/-- Python `max(iterable, default=d)`. -/
def maxWithDefault (l : List ℕ) (d : ℕ) : ℕ :=
  match l with
  | [] => d
  | x :: xs => xs.foldl max x

/-- `CustomerSignals._update_overall_risk`: the overall risk the method
stores, as a function of the record's probability and signal list (the
only state it reads). -/
def updateOverallRisk (churnProbability : Option ℚ) (signals : List Signal) :
    String :=
  match churnProbability with
  | some prob =>
      if prob ≥ 70/100 then "critical"
      else if prob ≥ 50/100 then "high"
      else if prob ≥ 25/100 then "medium"
      else "low"
  | none =>
      let maxRisk := maxWithDefault (signals.map (fun s => riskRank s.risk_level)) 1
      let maxRisk := if signals.length ≥ 4 then min (maxRisk + 1) 4 else maxRisk
      riskOfRank maxRisk

/-- `CustomerSignals.add_signal`: append and recompute the overall risk. -/
def addSignal (cs : CustomerSignals) (s : Signal) : CustomerSignals :=
  let signals := cs.signals ++ [s]
  { cs with signals := signals,
            overall_risk := updateOverallRisk cs.churn_probability signals }

/-- `SignalDetector` state: the column mappings and the fit-time
thresholds dict. -/
structure SignalDetector where
  mapping_result : Option MappingResult := none
  thresholds : List (String × ThVal) := []
deriving Repr, DecidableEq

/-- `SignalDetector._get_columns_by_type`. -/
def getColumnsByType (d : SignalDetector) (types : List ColumnType) :
    List String :=
  match d.mapping_result with
  | none => []
  | some mr =>
      (mr.mappings.filter (fun p => types.contains p.2.target_type)).map (·.1)

/-- The low-commitment vocabulary fragments of `compute_thresholds`. -/
def lowCommitKeywords : List String :=
  ["month", "no ", "none", "basic", "free"]

/-- The true-like vocabulary of the adoption-rate computation. -/
def positiveStrs : List String := ["yes", "1", "true"]

/-- `SignalDetector.compute_thresholds`: raises when no mapping is set;
otherwise computes cost/tenure percentiles, the contract low-commitment
value set, and per-binary-column adoption rates.  (The adoption-rate mean
over a zero-row frame is modelled by Lean's total division.) -/
def computeThresholds (d : SignalDetector) (df : DataFrame) :
    Except String SignalDetector :=
  match d.mapping_result with
  | none => Except.error "Column mappings not set"
  | some _ =>
      let costCols := getColumnsByType d [.COST_MONTHLY, .COST_TOTAL]
      let tenureCols := getColumnsByType d [.TENURE]
      let contractCols := getColumnsByType d [.CONTRACT]
      let binaryCols := getColumnsByType d [.BINARY]
      let th := costCols.foldl
        (fun th c =>
          if df.columns.contains c then
            let nums := (df.col c).filterMap blankThenNumeric
            match quantileQ nums (3/4), medianQ nums with
            | some hi, some med =>
                dictInsert (c ++ "_median") (.num med)
                  (dictInsert (c ++ "_high") (.num hi) th)
            | _, _ => th
          else th)
        d.thresholds
      let th := tenureCols.foldl
        (fun th c =>
          if df.columns.contains c then
            let nums := (df.col c).filterMap blankThenNumeric
            match quantileQ nums (1/4), medianQ nums with
            | some lo, some med =>
                dictInsert (c ++ "_median") (.num med)
                  (dictInsert (c ++ "_low") (.num lo) th)
            | _, _ => th
          else th)
        th
      let th := contractCols.foldl
        (fun th c =>
          if df.columns.contains c then
            let values := uniqueList ((df.col c).map (fun v => pyLower v.pyStr))
            let lowCommit := values.filter
              (fun v => lowCommitKeywords.any (fun kw => strContains v kw))
            dictInsert (c ++ "_low_commitment") (.strs lowCommit) th
          else th)
        th
      let engagement := binaryCols.foldl
        (fun eng c =>
          if df.columns.contains c then
            let series := df.col c
            let pos := series.countP
              (fun v => positiveStrs.contains (pyLower v.pyStr))
            eng ++ [(c, (pos : ℚ) / (series.length : ℚ))]
          else eng)
        []
      let th := dictInsert "service_engagement" (.rates engagement) th
      Except.ok { d with thresholds := th }

/-- The numeric coercion of `_check_high_cost`'s loop body:
`pd.to_numeric(value.strip(), errors="coerce")` for strings, then the
`pd.notna(value)` guard and `float(value)` (whose conversion failures the
surrounding `try/except` absorbs). -/
def coerceCost : Value → Option ℚ
  | .num q => some q
  | .str s => strToNumeric s.trim
  | .null => none

/-- The `high_cost` signal `_check_high_cost` constructs. -/
def highCostSignal (c : String) (x t : ℚ) : Signal :=
  { signal_type := "high_cost",
    description := "High charges in " ++ c,
    risk_level := "medium",
    evidence := c ++ " = " ++ ratStr x ++ " (above 75th percentile: " ++
      ratStr t ++ ")",
    column_involved := some c,
    value := some (.num x),
    threshold := some (.num t) }

/-- `_check_high_cost`: for every cost-role column appearing in the row
that has a computed `_high` threshold, emit a `high_cost` signal (tier
`medium`) when the coerced value strictly exceeds the threshold. -/
def checkHighCost (d : SignalDetector) (row : List (String × Value))
    (cs : CustomerSignals) : CustomerSignals :=
  (getColumnsByType d [.COST_MONTHLY, .COST_TOTAL]).foldl
    (fun cs c =>
      match row.lookup c with
      | none => cs
      | some v =>
          match d.thresholds.lookup (c ++ "_high") with
          | some (.num t) =>
              (match coerceCost v with
               | some x =>
                   if x > t then addSignal cs (highCostSignal c x t)
                   else cs
               | none => cs)
          | _ => cs)
    cs

/-- The `low_tenure` signal `_check_low_tenure` constructs. -/
def lowTenureSignal (c : String) (x t : ℚ) : Signal :=
  { signal_type := "low_tenure",
    description := "New or short-tenure customer",
    risk_level := "high",
    evidence := c ++ " = " ++ ratStr x ++ " (below 25th percentile: " ++
      ratStr t ++ ")",
    column_involved := some c,
    value := some (.num x),
    threshold := some (.num t) }

/-- `_check_low_tenure`: for every tenure-role column in the row with a
computed `_low` threshold, emit a `low_tenure` signal (tier `high`) when
the raw value is strictly below the threshold.  Unlike the cost check
there is no coercion and no `try/except`: a string cell reaches the bare
comparison `value < threshold`, which in Python 3 raises `TypeError`. -/
def checkLowTenure (d : SignalDetector) (row : List (String × Value))
    (cs : CustomerSignals) : Except String CustomerSignals :=
  (getColumnsByType d [.TENURE]).foldlM
    (fun cs c =>
      match row.lookup c with
      | none => Except.ok cs
      | some v =>
          match d.thresholds.lookup (c ++ "_low") with
          | some (.num t) =>
              (match v with
               | .null => Except.ok cs
               | .num x =>
                   if x < t then
                     Except.ok (addSignal cs (lowTenureSignal c x t))
                   else Except.ok cs
               | .str _ =>
                   Except.error "TypeError: str and float comparison")
          | _ => Except.ok cs)
    cs

/-- `_check_commitment`: for every contract-role column in the row with a
computed low-commitment value set, emit a `no_commitment` signal (tier
`high`) when the case-folded value belongs to the set. -/
def checkCommitment (d : SignalDetector) (row : List (String × Value))
    (cs : CustomerSignals) : CustomerSignals :=
  (getColumnsByType d [.CONTRACT]).foldl
    (fun cs c =>
      match row.lookup c with
      | none => cs
      | some v =>
          match d.thresholds.lookup (c ++ "_low_commitment") with
          | some (.strs lowCommit) =>
              let valueLower := pyLower v.pyStr
              if lowCommit.contains valueLower then
                addSignal cs
                  { signal_type := "no_commitment",
                    description := "No long-term commitment",
                    risk_level := "high",
                    evidence := c ++ " = " ++ sQuote ++ v.pyStr ++ sQuote ++
                      " (short-term/no contract)",
                    column_involved := some c,
                    value := some (.cell v) }
              else cs
          | _ => cs)
    cs

/-- The false-like vocabulary of `_check_missing_features`. -/
def negativeStrs : List String := ["no", "0", "false", "none", ""]

/-- `_check_missing_features`: count binary-role columns with adoption
rate above 0.5 whose value in the row is false-like; at 2 or more, emit a
`missing_features` signal (tier `medium`). -/
def checkMissingFeatures (d : SignalDetector) (row : List (String × Value))
    (cs : CustomerSignals) : CustomerSignals :=
  let engagement := match d.thresholds.lookup "service_engagement" with
    | some (.rates l) => l
    | _ => []
  let missingPopular := (getColumnsByType d [.BINARY]).filter
    (fun c =>
      match row.lookup c, engagement.lookup c with
      | some v, some rate =>
          rate > 1/2 && negativeStrs.contains (pyLower v.pyStr)
      | _, _ => false)
  if missingPopular.length ≥ 2 then
    addSignal cs
      { signal_type := "missing_features",
        description := "Lacks popular value-added services",
        risk_level := "medium",
        evidence := "Missing: " ++
          String.intercalate ", " (missingPopular.take 5),
        value := some (.strs missingPopular) }
  else cs

/-- `SignalDetector.detect_signals`: run every check in source order and
re-derive the overall risk once more at the end.  The only failing path is
the bare tenure comparison on a string cell; there is no precondition
check on `thresholds`. -/
def detectSignals (d : SignalDetector) (row : List (String × Value))
    (churnProbability : Option ℚ := none) : Except String CustomerSignals := do
  let cs : CustomerSignals := { churn_probability := churnProbability }
  let idCols := getColumnsByType d [.ID]
  let cs := match idCols.head? with
    | some c =>
        (match row.lookup c with
         | some v => { cs with customer_id := some v.pyStr }
         | none => cs)
    | none => cs
  let cs := match churnProbability with
    | some p =>
        if p ≥ 7/10 then
          addSignal cs
            { signal_type := "high_churn_probability",
              description := "Model predicts high likelihood of churn",
              risk_level := if p ≥ 85/100 then "critical" else "high",
              evidence := "Churn probability: " ++ ratStr (p * 100) ++ "%",
              value := some (.num p),
              threshold := some (.num (7/10)) }
        else cs
    | none => cs
  let cs := checkHighCost d row cs
  let cs ← checkLowTenure d row cs
  let cs := checkCommitment d row cs
  let cs := checkMissingFeatures d row cs
  return { cs with
    overall_risk := updateOverallRisk cs.churn_probability cs.signals }

/-- `SignalDetector.get_signal_summary`: aggregate statistics over a
batch.  The per-tier percentages divide by the *unguarded* total, where
Python raises `ZeroDivisionError` on an empty batch (modelled as
`Except.error`), while the signals-per-customer average divides by
`max(total, 1)`. -/
def getSignalSummary (signalsList : List CustomerSignals) :
    Except String (ℕ × List (String × ℚ) × ℚ) := do
  let total := signalsList.length
  let riskCounts := ["low", "medium", "high", "critical"].map
    (fun k => (k, signalsList.countP (fun cs => cs.overall_risk = k)))
  let riskPercentages ← riskCounts.mapM
    (fun p =>
      if total = 0 then
        Except.error "ZeroDivisionError: division by zero"
      else
        Except.ok (p.1, ((p.2 : ℚ) / (total : ℚ)) * 100))
  let avgSignals : ℚ :=
    ((signalsList.map (fun cs => cs.signals.length)).sum : ℚ) /
      (max total 1 : ℚ)
  return (total, riskPercentages, avgSignals)

/-!
## Preprocessor and model pipeline guards
(`src/pipeline/preprocessor.py`, `src/pipeline/model_pipeline.py`)

The fitted sklearn transformer and classifier are external collaborators;
they are modelled as function fields of the state records, so the embedded
`transform`/`predict` keep exactly the source's precondition structure.
-/

/-- `AdaptivePreprocessor` state (the fitted `ColumnTransformer` is the
opaque `transformFn`). -/
structure AdaptivePreprocessor where
  is_fitted : Bool := false
  feature_columns : List String := []
  target_column : Option String := none
  transformFn : DataFrame → List (List ℚ) := fun _ => []

/-- `AdaptivePreprocessor.transform`: raises unless fitted, then applies
the fitted transformer (column synthesis and numeric cleaning happen
inside the collaborator boundary here). -/
def AdaptivePreprocessor.transform (pre : AdaptivePreprocessor)
    (df : DataFrame) : Except String (List (List ℚ)) :=
  if ¬pre.is_fitted then
    Except.error "Preprocessor not fitted. Call fit() first."
  else
    Except.ok (pre.transformFn df)

/-- `ModelPipeline` state (the fitted classifier is the opaque
`predictProbaFn`, giving the positive-class probability per row). -/
structure ModelPipeline where
  is_trained : Bool := false
  preprocessor : AdaptivePreprocessor := {}
  predictProbaFn : List (List ℚ) → List ℚ := fun _ => []

/-- `PredictionResult` dataclass. -/
structure PredictionResult where
  predictions : List ℕ
  probabilities : List ℚ
deriving Repr, DecidableEq

/-- `ModelPipeline.predict`: raises unless trained, then transforms
(which itself raises unless the preprocessor is fitted), thresholds the
positive-class probability inclusively. -/
def ModelPipeline.predict (pl : ModelPipeline) (df : DataFrame)
    (threshold : ℚ := 1/2) : Except String PredictionResult := do
  if ¬pl.is_trained then
    throw "Model not trained. Call train() first."
  let X ← pl.preprocessor.transform df
  let probabilities := pl.predictProbaFn X
  let predictions := probabilities.map (fun p => if p ≥ threshold then 1 else 0)
  return { predictions := predictions, probabilities := probabilities }

/-!
## Smart pipeline (`src/pipeline/smart_pipeline.py`)
-/

/-- The registry entry fields `_calculate_compatibility` reads
(`columns`, `target`, `n_features`; `columns` is consumed as a Python
set). -/
structure RegisteredModel where
  columns : Finset String
  target : String
  n_features : ℕ
deriving DecidableEq

/-- `SmartPipeline._calculate_compatibility`: 0.5 × column-overlap
fraction + 0.3 × case-insensitive target match + 0.2 × feature-count
ratio; 0 outright when the registered column set is empty.
`currentTarget` is the first TARGET-role column of the new dataset's
mapping, when any (Python treats the empty string as no target). -/
def calculateCompatibility (currentCols : Finset String) (nCurrentCols : ℕ)
    (currentTarget : Option String) (registered : RegisteredModel) : ℚ :=
  if registered.columns = ∅ then 0
  else
    let overlap : ℚ :=
      ((currentCols ∩ registered.columns).card : ℚ) /
        (registered.columns.card : ℚ)
    let score := overlap * (5/10)
    let score :=
      match currentTarget with
      | some t =>
          if t ≠ "" ∧ pyLower t = pyLower registered.target then
            score + 3/10
          else score
      | none => score
    if registered.n_features > 0 then
      let featureRatio : ℚ :=
        (min nCurrentCols registered.n_features : ℚ) /
          (max nCurrentCols registered.n_features : ℚ)
      score + featureRatio * (2/10)
    else score

/-!
## Recommendation engine summary statistics
(`src/recommender/recommender.py`)
-/

/-- The fields of `RecommendationOutput` that `get_summary_statistics`
reads. -/
structure RecommendationOutput where
  churn_probability : Option ℚ := none
  risk_level : String := "low"
  signal_types : List String := []
deriving Repr, DecidableEq

/-- The statistics record `get_summary_statistics` assembles (signal
frequency and the rounding of the two averages are abstracted away; the
divisions are kept exactly). -/
structure SummaryStats where
  total_customers : ℕ
  risk_percentages : List (String × ℚ)
  high_risk_count : ℕ
  avg_signals_per_customer : ℚ
  avg_churn_probability : ℚ
  customers_above_70pct : ℕ
deriving Repr, DecidableEq

/-- `RecommendationEngine.get_summary_statistics`: the per-tier
percentages divide by the raw total (Python `ZeroDivisionError` on an
empty batch, modelled as `Except.error`), while the signals-per-customer
average divides by `max(total, 1)` and the probability average is guarded
by a non-empty filter. -/
def getSummaryStatistics (recommendations : List RecommendationOutput) :
    Except String SummaryStats := do
  let total := recommendations.length
  let riskDist := ["low", "medium", "high", "critical"].map
    (fun k => (k, recommendations.countP (fun r => r.risk_level = k)))
  let totalSignals := (recommendations.map (fun r => r.signal_types.length)).sum
  let probs := (recommendations.filterMap (fun r => r.churn_probability)).filter
    (fun p => p ≠ 0)
  let riskPercentages ← riskDist.mapM
    (fun p =>
      if total = 0 then
        Except.error "ZeroDivisionError: division by zero"
      else
        Except.ok (p.1, ((p.2 : ℚ) / (total : ℚ)) * 100))
  let highRisk :=
    recommendations.countP (fun r => r.risk_level = "high") +
    recommendations.countP (fun r => r.risk_level = "critical")
  return {
    total_customers := total
    risk_percentages := riskPercentages
    high_risk_count := highRisk
    avg_signals_per_customer := (totalSignals : ℚ) / (max total 1 : ℚ)
    avg_churn_probability :=
      if probs.isEmpty then 0 else probs.sum / (probs.length : ℚ)
    customers_above_70pct := (probs.filter (fun p => p ≥ 7/10)).length }

/-!
## Claim-level definitions and theorems
-/

/-- A detector whose mapping assigns `col` the `cost_monthly` role and
whose thresholds hold the computed 75th-percentile high threshold `t`. -/
def costDetector (col : String) (t : ℚ) : SignalDetector :=
  { mapping_result := some { mappings := [(col,
      { source_column := col, target_type := .COST_MONTHLY, confidence := 1,
        detection_method := "manual" })] },
    thresholds := [(col ++ "_high", .num t)] }

/-- A detector whose mapping assigns `col` the `tenure` role and whose
thresholds hold the computed 25th-percentile low threshold `t`. -/
def tenureDetector (col : String) (t : ℚ) : SignalDetector :=
  { mapping_result := some { mappings := [(col,
      { source_column := col, target_type := .TENURE, confidence := 1,
        detection_method := "manual" })] },
    thresholds := [(col ++ "_low", .num t)] }

/-- The keyword pairs the `_keyword_match` loop actually scores for a
normalized name: those passing the mutual-substring test. -/
def consideredList (norm : List Char) : List (ColumnType × String) :=
  schemaKeywordPairs.filter (fun p => kwConsidered norm p.2)

/-- The score carried by an optional best-so-far triple (0 for none, as
the loop initialises `best_score = 0.0`). -/
def scoreOpt : Option (ColumnType × String × ℚ) → ℚ
  | none => 0
  | some b => b.2.2

/-- The maximum score among the considered keywords (0 when none). -/
def bestKeywordScore (norm : List Char) : ℚ :=
  ((consideredList norm).map (fun p => kwScore norm p.2)).foldl max 0

/-- The column shape of the clean-binary-target scenario:
`CustomerID, tenure, MonthlyCharges, Contract, Churn`. -/
def scenarioShape (v1 v2 v3 v4 v5 : List Value) : DataFrame :=
  ⟨[("CustomerID", v1), ("tenure", v2), ("MonthlyCharges", v3),
    ("Contract", v4), ("Churn", v5)]⟩

/-- A concrete 200-row frame of that shape: no missing values and a
Yes/No `Churn` column. -/
def scenarioFrame : DataFrame :=
  scenarioShape
    ((List.range 200).map (fun i => .str ("C" ++ toString i)))
    (List.replicate 200 (.num 12))
    (List.replicate 200 (.num 50))
    (List.replicate 200 (.str "Two year"))
    ((List.range 200).map (fun i => if i % 2 = 0 then .str "Yes" else .str "No"))

/-- **C1.** For every `CustomerSignals` record, when a churn probability
is present the overall risk is a function of the probability alone —
`critical` iff p ≥ 0.70, `high` iff 0.50 ≤ p < 0.70, `medium` iff
0.25 ≤ p < 0.50, `low` iff p < 0.25 — independent of the signal list;
only with no probability does the tier fall back to the maximum tier
among the signals, escalated one level when at least 4 signals fired and
capped at `critical`. -/
theorem overall_risk_probability_first (p : ℚ) (signals signals2 : List Signal) :
    updateOverallRisk (some p) signals = updateOverallRisk (some p) signals2
    ∧ (updateOverallRisk (some p) signals = "critical" ↔ 70/100 ≤ p)
    ∧ (updateOverallRisk (some p) signals = "high" ↔ 50/100 ≤ p ∧ p < 70/100)
    ∧ (updateOverallRisk (some p) signals = "medium" ↔ 25/100 ≤ p ∧ p < 50/100)
    ∧ (updateOverallRisk (some p) signals = "low" ↔ p < 25/100)
    ∧ updateOverallRisk none signals =
        riskOfRank
          (if signals.length ≥ 4 then
            min (maxWithDefault (signals.map (fun s => riskRank s.risk_level)) 1 + 1) 4
          else
            maxWithDefault (signals.map (fun s => riskRank s.risk_level)) 1) := by
  refine ⟨rfl, ?_, ?_, ?_, ?_, rfl⟩ <;>
    · simp only [updateOverallRisk]
      split_ifs <;>
        simp_all <;>
        first
          | linarith
          | (intros; linarith)

/-- **C2.** Threshold comparisons are strict at the percentile boundary:
with a cost-role column carrying a computed high threshold `t`, a
`high_cost` signal (tier `medium`) is added iff the coerced numeric value
strictly exceeds `t`; with a tenure-role column carrying a computed low
threshold `t`, a `low_tenure` signal (tier `high`) is added iff the value
is strictly below `t`; a value exactly equal to the threshold never
triggers either signal. -/
theorem threshold_comparisons_strict (col : String) (t x : ℚ) (v : Value)
    (cs : CustomerSignals) :
    (coerceCost v = some x →
      checkHighCost (costDetector col t) [(col, v)] cs =
        (if x > t then addSignal cs (highCostSignal col x t) else cs))
    ∧ (coerceCost v = none → checkHighCost (costDetector col t) [(col, v)] cs = cs)
    ∧ (coerceCost v = some t → checkHighCost (costDetector col t) [(col, v)] cs = cs)
    ∧ (highCostSignal col x t).risk_level = "medium"
    ∧ checkLowTenure (tenureDetector col t) [(col, .num x)] cs =
        Except.ok (if x < t then addSignal cs (lowTenureSignal col x t) else cs)
    ∧ checkLowTenure (tenureDetector col t) [(col, .num t)] cs = Except.ok cs
    ∧ checkLowTenure (tenureDetector col t) [(col, .null)] cs = Except.ok cs
    ∧ (lowTenureSignal col x t).risk_level = "high" := by
  refine ⟨?_, ?_, ?_, rfl, ?_, ?_, ?_, rfl⟩
  · intro h
    simp [checkHighCost, costDetector, getColumnsByType, List.lookup, h]
  · intro h
    simp [checkHighCost, costDetector, getColumnsByType, List.lookup, h]
  · intro h
    simp [checkHighCost, costDetector, getColumnsByType, List.lookup, h]
  · simp only [checkLowTenure, tenureDetector, getColumnsByType]
    simp [List.lookup, apply_ite]
    split_ifs with h
    · intro h2
      linarith
    · intro h2
      exact absurd h2 h
  · simp [checkLowTenure, tenureDetector, getColumnsByType, List.lookup]
  · simp [checkLowTenure, tenureDetector, getColumnsByType, List.lookup]

/-- **C2 witness.** The boundary case at a concrete input: value 50 equal
to threshold 50 triggers neither signal; value 60 above it triggers
`high_cost`. -/
theorem threshold_comparisons_strict_witness :
    checkHighCost (costDetector "MonthlyCharges" 50) [("MonthlyCharges", .num 50)] {} = {}
    ∧ checkHighCost (costDetector "MonthlyCharges" 50) [("MonthlyCharges", .num 60)] {} =
        addSignal {} (highCostSignal "MonthlyCharges" 60 50) := by
  constructor
  · exact (threshold_comparisons_strict "MonthlyCharges" 50 50 (.num 50) {}).2.2.1 rfl
  · have h := (threshold_comparisons_strict "MonthlyCharges" 50 60 (.num 60) {}).1 rfl
    rw [h]
    norm_num

/-- **C8.** With equal duplicate statistics, a run whose missing-cell
percentage `pa` is above 20% scores strictly lower than a run whose
percentage `pb` is below 20%; the score starts at 100, loses
`min(30, pct)` above 20%, `pct` in the (5, 20] band, `min(10, pct)` when
duplicate rows exist, and never drops below 0. -/
theorem quality_score_missing_monotone (pa pb dupPct : ℚ) (k : ℕ)
    (hpa : 20 < pa) (hpb : pb < 20) :
    qualityScore pa k dupPct < qualityScore pb k dupPct
    ∧ (∀ p : ℚ, 0 ≤ qualityScore p k dupPct)
    ∧ qualityScore pa k dupPct =
        100 - min 30 pa - (if 0 < k then min 10 dupPct else 0)
    ∧ (5 < pb →
        qualityScore pb k dupPct =
          max 0 (100 - pb - (if 0 < k then min 10 dupPct else 0))) := by
  have hd : min 10 dupPct ≤ 10 := min_le_left _ _
  have hm : min 30 pa ≤ 30 := min_le_left _ _
  have hm2 : 20 < min 30 pa := lt_min (by norm_num) hpa
  refine ⟨?_, ?_, ?_, ?_⟩
  · simp only [qualityScore]
    split_ifs <;>
      first
        | linarith
        | (rw [max_eq_right (by linarith)]; apply lt_max_of_lt_right; linarith)
  · intro p
    simp only [qualityScore]
    exact le_max_left 0 _
  · simp only [qualityScore]
    split_ifs <;>
      first
        | linarith
        | (rw [max_eq_right (by linarith)]; try ring)
  · intro h5
    simp only [qualityScore]
    split_ifs <;> first | rfl | linarith | (rw [sub_zero])

/-- **C8 witness.** Concrete runs at 25% and 10% missing with one
duplicate row at 2%. -/
theorem quality_score_missing_monotone_witness :
    qualityScore 25 1 2 < qualityScore 10 1 2
    ∧ qualityScore 25 1 2 = 100 - min 30 25 - min 10 2 := by
  have h := quality_score_missing_monotone 25 10 2 1 (by norm_num) (by norm_num)
  refine ⟨h.1, ?_⟩
  have h3 := h.2.2.1
  simpa using h3

/-- **C9.** The smart pipeline's compatibility score is always within
[0, 1], and a dataset identical to a registered domain in column set,
target-column name and feature count scores exactly 1. -/
theorem compatibility_score_bounds (cur : Finset String) (n : ℕ)
    (tgt : Option String) (reg : RegisteredModel) :
    0 ≤ calculateCompatibility cur n tgt reg
    ∧ calculateCompatibility cur n tgt reg ≤ 1
    ∧ (cur = reg.columns → reg.columns.Nonempty →
        tgt = some reg.target → reg.target ≠ "" →
        n = reg.n_features → 0 < reg.n_features →
        calculateCompatibility cur n tgt reg = 1) := by
  by_cases h1 : reg.columns = ∅
  · refine ⟨?_, ?_, ?_⟩
    · simp [calculateCompatibility, h1]
    · simp [calculateCompatibility, h1]
    · intro _ hne _ _ _ _
      rw [h1] at hne
      simp at hne
  · have hcard : (0 : ℚ) < (reg.columns.card : ℚ) := by
      exact_mod_cast Finset.card_pos.mpr (Finset.nonempty_iff_ne_empty.mpr h1)
    have ho1 : (0 : ℚ) ≤ ((cur ∩ reg.columns).card : ℚ) / (reg.columns.card : ℚ) := by
      positivity
    have ho2 : ((cur ∩ reg.columns).card : ℚ) / (reg.columns.card : ℚ) ≤ 1 := by
      rw [div_le_one hcard]
      exact_mod_cast Finset.card_le_card Finset.inter_subset_right
    have hr : ∀ m k : ℕ, 0 < k →
        (0 : ℚ) ≤ ((m : ℚ) ⊓ (k : ℚ)) / ((m : ℚ) ⊔ (k : ℚ))
        ∧ ((m : ℚ) ⊓ (k : ℚ)) / ((m : ℚ) ⊔ (k : ℚ)) ≤ 1 := by
      intro m k hk
      have hkq : (0 : ℚ) < (k : ℚ) := by exact_mod_cast hk
      have hmax : (0 : ℚ) < (m : ℚ) ⊔ (k : ℚ) :=
        lt_of_lt_of_le hkq (le_max_right _ _)
      have hmin : (0 : ℚ) ≤ (m : ℚ) ⊓ (k : ℚ) :=
        le_min (Nat.cast_nonneg m) (Nat.cast_nonneg k)
      constructor
      · exact div_nonneg hmin (le_of_lt hmax)
      · rw [div_le_one hmax]
        exact min_le_max
    refine ⟨?_, ?_, ?_⟩
    · rcases tgt with _ | t <;>
        simp only [calculateCompatibility, if_neg h1] <;>
        split_ifs <;>
        first
          | linarith
          | (have h6 := (hr n reg.n_features (by assumption)).1
             linarith)
    · rcases tgt with _ | t <;>
        simp only [calculateCompatibility, if_neg h1] <;>
        split_ifs <;>
        first
          | linarith
          | (have h6 := (hr n reg.n_features (by assumption)).2
             linarith)
    · intro hc hne ht hts hn hpos
      subst hc
      subst ht
      subst hn
      have hnf0 : ((reg.n_features : ℚ)) ≠ 0 := by
        exact_mod_cast hpos.ne.symm
      simp only [calculateCompatibility, if_neg h1, Finset.inter_self]
      rw [div_self (ne_of_gt hcard), min_self, max_self, div_self hnf0]
      simp [hts, hpos]
      norm_num

/-- **C9 witness.** A dataset identical to a concrete registered domain
(columns {a, b}, target "Churn", 2 features) scores exactly 1. -/
theorem compatibility_score_bounds_witness :
    calculateCompatibility {"a", "b"} 2 (some "Churn")
      { columns := {"a", "b"}, target := "Churn", n_features := 2 } = 1 := by
  exact (compatibility_score_bounds {"a", "b"} 2 (some "Churn")
    { columns := {"a", "b"}, target := "Churn", n_features := 2 }).2.2
    rfl ⟨"a", by decide⟩ rfl (by decide) rfl (by decide)

/-- Helper: a monadic fold whose step always succeeds with an unchanged
accumulator succeeds with the initial accumulator. -/
theorem foldlM_ok_of_id {α β : Type} (f : β → α → Except String β)
    (hf : ∀ b a, f b a = Except.ok b) :
    ∀ (l : List α) (b : β), List.foldlM f b l = Except.ok b
  | [], b => rfl
  | a :: l, b => by
      rw [List.foldlM_cons, hf b a]
      exact foldlM_ok_of_id f hf l b

/-- Helper: mapping a list through an always-succeeding `Except` action
collects the results. -/
theorem mapM_ok_of_fun {α β : Type} (g : α → β) :
    ∀ l : List α,
      List.mapM (fun a => (Except.ok (g a) : Except String β)) l =
        Except.ok (l.map g)
  | [] => rfl
  | a :: l => by
      simp only [List.mapM_cons, mapM_ok_of_fun g l, List.map_cons]
      rfl

/-- **C10.** On an empty batch the summary-statistics operations fail
with a division-by-zero error while computing the per-tier risk
percentages (the divisor is the raw record count), rather than returning
a statistics object; on any non-empty batch they succeed, showing the
unguarded percentage division is the only failing computation — the
signals-per-customer average in the same result is guarded by
`max(total, 1)`. -/
theorem summary_statistics_empty_batch :
    getSummaryStatistics [] = Except.error "ZeroDivisionError: division by zero"
    ∧ getSignalSummary [] = Except.error "ZeroDivisionError: division by zero"
    ∧ (∀ recs : List RecommendationOutput, recs ≠ [] →
        (getSummaryStatistics recs).isOk = true)
    ∧ (∀ sigs : List CustomerSignals, sigs ≠ [] →
        (getSignalSummary sigs).isOk = true) := by
  refine ⟨rfl, rfl, ?_, ?_⟩
  · intro recs hne
    have hlen : ¬(recs.length = 0) := fun h => hne (List.length_eq_zero.mp h)
    simp only [getSummaryStatistics, if_neg hlen]
    rw [mapM_ok_of_fun
      (fun p : String × ℕ => (p.1, ((p.2 : ℚ) / (recs.length : ℚ)) * 100))]
    rfl
  · intro sigs hne
    have hlen : ¬(sigs.length = 0) := fun h => hne (List.length_eq_zero.mp h)
    simp only [getSignalSummary, if_neg hlen]
    rw [mapM_ok_of_fun
      (fun p : String × ℕ => (p.1, ((p.2 : ℚ) / (sigs.length : ℚ)) * 100))]
    rfl

/-- **C10 witness.** A singleton batch succeeds. -/
theorem summary_statistics_empty_batch_witness :
    (getSummaryStatistics [{ risk_level := "low" }]).isOk = true
    ∧ (getSignalSummary [{ overall_risk := "low" }]).isOk = true := by
  exact ⟨summary_statistics_empty_batch.2.2.1 [{ risk_level := "low" }] (by decide),
         summary_statistics_empty_batch.2.2.2 [{ overall_risk := "low" }] (by decide)⟩

/-- **C4 (amended).** Predicting before training and transforming before
fitting each raise immediately as a single unambiguous error, and so does
computing thresholds without column mappings; but `detect_signals` has no
precondition check at all: called before thresholds have been computed it
silently returns a result (all threshold-dependent checks are skipped),
it does not raise. -/
theorem precondition_guards :
    (∀ (pl : ModelPipeline) (df : DataFrame) (th : ℚ), pl.is_trained = false →
      pl.predict df th = Except.error "Model not trained. Call train() first.")
    ∧ (∀ (pre : AdaptivePreprocessor) (df : DataFrame), pre.is_fitted = false →
      pre.transform df = Except.error "Preprocessor not fitted. Call fit() first.")
    ∧ (∀ (d : SignalDetector) (row : List (String × Value)) (p : Option ℚ),
        d.thresholds = [] → (detectSignals d row p).isOk = true)
    ∧ (∀ (d : SignalDetector) (df : DataFrame), d.mapping_result = none →
        computeThresholds d df = Except.error "Column mappings not set") := by
  refine ⟨?_, ?_, ?_, ?_⟩
  · intro pl df th h
    simp only [ModelPipeline.predict, h, Bool.false_eq_true,
      not_false_eq_true, if_true]
    rfl
  · intro pre df h
    simp [AdaptivePreprocessor.transform, h]
  · intro d row p h
    have hlt : ∀ cs, checkLowTenure d row cs = Except.ok cs := by
      intro cs
      unfold checkLowTenure
      apply foldlM_ok_of_id
      intro b c
      cases hrow : row.lookup c with
      | none => rfl
      | some v =>
          rw [h]
          rfl
    simp only [detectSignals, hlt]
    rfl
  · intro d df h
    simp [computeThresholds, h]

/-- **C4 witness.** Concrete untrained pipeline, unfitted preprocessor,
fresh detector. -/
theorem precondition_guards_witness :
    ({ is_trained := false : ModelPipeline }.predict ⟨[]⟩ (1/2) =
      Except.error "Model not trained. Call train() first.")
    ∧ ({ is_fitted := false : AdaptivePreprocessor }.transform ⟨[]⟩ =
      Except.error "Preprocessor not fitted. Call fit() first.")
    ∧ (detectSignals { thresholds := [] } [] none).isOk = true
    ∧ computeThresholds { mapping_result := none } ⟨[]⟩ =
        Except.error "Column mappings not set" := by
  exact ⟨precondition_guards.1 _ ⟨[]⟩ (1/2) rfl,
         precondition_guards.2.1 _ ⟨[]⟩ rfl,
         precondition_guards.2.2.1 { thresholds := [] } [] none rfl,
         precondition_guards.2.2.2 { mapping_result := none } ⟨[]⟩ rfl⟩

/-- **C4 counterexample.** Detecting signals on a detector whose
thresholds were never computed (but whose mapping marks `tenure` as a
tenure column) does not raise: it returns a normal `CustomerSignals`
record with no signals, contradicting the claim that this precondition
violation raises an error. -/
theorem detect_before_thresholds_returns :
    detectSignals
      { mapping_result := some { mappings := [("tenure",
          { source_column := "tenure", target_type := .TENURE, confidence := 1,
            detection_method := "manual" })] },
        thresholds := [] }
      [("tenure", Value.num 2)] none
      = Except.ok { customer_id := none, signals := [], overall_risk := "low",
                    churn_probability := none } := by
  rfl

/-- Helper: membership after a Python-dict update comes either from the
inserted pair or from the original dict. -/
theorem dictInsert_mem {α : Type} (key : String) (val : α) :
    ∀ (l : List (String × α)) (c : String) (m : α),
      (c, m) ∈ dictInsert key val l → (c = key ∧ m = val) ∨ (c, m) ∈ l
  | [], c, m, h => by
      simp only [dictInsert, List.mem_singleton, Prod.mk.injEq] at h
      exact Or.inl h
  | (k, v) :: rest, c, m, h => by
      by_cases hk : k = key
      · rw [dictInsert, if_pos hk] at h
        rcases List.mem_cons.mp h with h2 | h2
        · rcases Prod.mk.injEq .. ▸ h2 with ⟨h3, h4⟩
          exact Or.inl ⟨h3.trans hk, h4⟩
        · exact Or.inr (List.mem_cons_of_mem _ h2)
      · rw [dictInsert, if_neg hk] at h
        rcases List.mem_cons.mp h with h2 | h2
        · exact Or.inr (List.mem_cons.mpr (Or.inl h2))
        · rcases dictInsert_mem key val rest c m h2 with h3 | h3
          · exact Or.inl h3
          · exact Or.inr (List.mem_cons_of_mem _ h3)

/-- Helper: a mapping present after the manual-application fold either
satisfies an invariant of the accumulator or originates from one of the
processed (column, role) pairs. -/
theorem applyManual_fold_mem (df : DataFrame) :
    ∀ (rest : List (String × String)) (R : String → ColumnMapping → Prop)
      (acc : MappingResult),
      (∀ c m, (c, m) ∈ acc.mappings → R c m) →
      ∀ c m, (c, m) ∈ (rest.foldl (applyManualStep df) acc).mappings →
        R c m ∨ ∃ p ∈ rest, p.1 = c
          ∧ ColumnType.ofString p.2 = some m.target_type
          ∧ m.confidence = 1 ∧ m.detection_method = "manual" := by
  intro rest
  induction rest with
  | nil =>
      intro R acc hacc c m h
      exact Or.inl (hacc c m h)
  | cons p rest ih =>
      obtain ⟨pc, pr⟩ := p
      intro R acc hacc c m h
      rw [List.foldl_cons] at h
      have hstep : ∀ c2 m2,
          (c2, m2) ∈ (applyManualStep df acc (pc, pr)).mappings →
          R c2 m2 ∨ (pc = c2 ∧ ColumnType.ofString pr = some m2.target_type
            ∧ m2.confidence = 1 ∧ m2.detection_method = "manual") := by
        intro c2 m2 h2
        unfold applyManualStep at h2
        dsimp only at h2
        split at h2
        · split at h2
          · rename_i t ht
            rcases dictInsert_mem _ _ _ _ _ h2 with h3 | h3
            · refine Or.inr ⟨h3.1.symm, ?_, ?_, ?_⟩
              · rw [ht, h3.2]
              · rw [h3.2]
              · rw [h3.2]
            · exact Or.inl (hacc _ _ h3)
          · exact Or.inl (hacc _ _ h2)
        · exact Or.inl (hacc _ _ h2)
      rcases ih _ _ hstep c m h with h3 | ⟨q, hq, hq2⟩
      · rcases h3 with h3 | h3
        · exact Or.inl h3
        · exact Or.inr ⟨(pc, pr), List.mem_cons_self _ _, h3⟩
      · exact Or.inr ⟨q, List.mem_cons_of_mem _ hq, hq2⟩

/-- Helper: warnings only accumulate through the manual-application fold. -/
theorem applyManual_fold_warn_mono (df : DataFrame) :
    ∀ (rest : List (String × String)) (acc : MappingResult) (w : String),
      w ∈ acc.warnings → w ∈ (rest.foldl (applyManualStep df) acc).warnings := by
  intro rest
  induction rest with
  | nil => intro acc w h; exact h
  | cons p rest ih =>
      obtain ⟨pc, pr⟩ := p
      intro acc w h
      rw [List.foldl_cons]
      apply ih
      unfold applyManualStep
      dsimp only
      split
      · split
        · exact h
        · exact List.mem_append_left _ h
      · exact List.mem_append_left _ h

/-- Helper: an unknown role name for a present column leaves its warning
in the fold's result. -/
theorem applyManual_fold_warn (df : DataFrame) :
    ∀ (rest : List (String × String)) (acc : MappingResult) (c r : String),
      (c, r) ∈ rest → df.columns.contains c = true →
      ColumnType.ofString r = none →
      unknownTypeWarning r c ∈ (rest.foldl (applyManualStep df) acc).warnings := by
  intro rest
  induction rest with
  | nil =>
      intro acc c r h
      exact absurd h (List.not_mem_nil _)
  | cons p rest ih =>
      obtain ⟨pc, pr⟩ := p
      intro acc c r hmem hc hr
      rw [List.foldl_cons]
      rcases List.mem_cons.mp hmem with h | h
      · injection h with h1 h2
        subst h1
        subst h2
        apply applyManual_fold_warn_mono
        unfold applyManualStep
        dsimp only
        rw [if_pos hc]
        simp only [hr]
        exact List.mem_append_right _ (List.mem_singleton.mpr rfl)
      · exact ih _ c r h hc hr

/-- Helper: a mapping present after the manual-merge fold either
satisfies an invariant of the accumulator or originates from one of the
merged (column, role) pairs. -/
theorem mergeManual_fold_mem :
    ∀ (rest : List (String × String)) (R : String → ColumnMapping → Prop)
      (acc : MappingResult),
      (∀ c m, (c, m) ∈ acc.mappings → R c m) →
      ∀ c m, (c, m) ∈ (rest.foldl mergeManualStep acc).mappings →
        R c m ∨ ∃ p ∈ rest, p.1 = c
          ∧ ColumnType.ofString p.2 = some m.target_type
          ∧ m.confidence = 1 ∧ m.detection_method = "manual" := by
  intro rest
  induction rest with
  | nil =>
      intro R acc hacc c m h
      exact Or.inl (hacc c m h)
  | cons p rest ih =>
      obtain ⟨pc, pr⟩ := p
      intro R acc hacc c m h
      rw [List.foldl_cons] at h
      have hstep : ∀ c2 m2,
          (c2, m2) ∈ (mergeManualStep acc (pc, pr)).mappings →
          R c2 m2 ∨ (pc = c2 ∧ ColumnType.ofString pr = some m2.target_type
            ∧ m2.confidence = 1 ∧ m2.detection_method = "manual") := by
        intro c2 m2 h2
        unfold mergeManualStep at h2
        dsimp only at h2
        split at h2
        · rename_i t ht
          rcases dictInsert_mem _ _ _ _ _ h2 with h3 | h3
          · refine Or.inr ⟨h3.1.symm, ?_, ?_, ?_⟩
            · rw [ht, h3.2]
            · rw [h3.2]
            · rw [h3.2]
          · exact Or.inl (hacc _ _ h3)
        · exact Or.inl (hacc _ _ h2)
      rcases ih _ _ hstep c m h with h3 | ⟨q, hq, hq2⟩
      · rcases h3 with h3 | h3
        · exact Or.inl h3
        · exact Or.inr ⟨(pc, pr), List.mem_cons_self _ _, h3⟩
      · exact Or.inr ⟨q, List.mem_cons_of_mem _ hq, hq2⟩

/-- Helper: warnings only accumulate through the manual-merge fold. -/
theorem mergeManual_fold_warn_mono :
    ∀ (rest : List (String × String)) (acc : MappingResult) (w : String),
      w ∈ acc.warnings → w ∈ (rest.foldl mergeManualStep acc).warnings := by
  intro rest
  induction rest with
  | nil => intro acc w h; exact h
  | cons p rest ih =>
      obtain ⟨pc, pr⟩ := p
      intro acc w h
      rw [List.foldl_cons]
      apply ih
      unfold mergeManualStep
      dsimp only
      split
      · exact h
      · exact List.mem_append_left _ h

/-- Helper: an unknown role name leaves its warning in the merge fold's
result. -/
theorem mergeManual_fold_warn :
    ∀ (rest : List (String × String)) (acc : MappingResult) (c r : String),
      (c, r) ∈ rest → ColumnType.ofString r = none →
      unknownTypeWarning r c ∈ (rest.foldl mergeManualStep acc).warnings := by
  intro rest
  induction rest with
  | nil =>
      intro acc c r h
      exact absurd h (List.not_mem_nil _)
  | cons p rest ih =>
      obtain ⟨pc, pr⟩ := p
      intro acc c r hmem hr
      rw [List.foldl_cons]
      rcases List.mem_cons.mp hmem with h | h
      · injection h with h1 h2
        subst h1
        subst h2
        apply mergeManual_fold_warn_mono
        unfold mergeManualStep
        dsimp only
        simp only [hr]
        exact List.mem_append_right _ (List.mem_singleton.mpr rfl)
      · exact ih _ c r h hr

/-- Helper: a keyword-stage mapping is detected by `keyword` or by
`value_hint`, never `manual`. -/
theorem keywordMatch_method (name : String) (series : List Value)
    (m : ColumnMapping) (h : keywordMatch name series = some m) :
    m.detection_method = "keyword" ∨ m.detection_method = "value_hint" := by
  unfold keywordMatch at h
  split at h
  · exact Or.inl (by cases h; rfl)
  · unfold valueHintFallback at h
    dsimp only at h
    split at h
    · split at h
      · exact Or.inr (by cases h; rfl)
      · exact absurd h (by simp)
    · exact absurd h (by simp)

/-- Helper: a type-inference mapping is detected by `type_inference`,
never `manual`. -/
theorem typeInference_method (name : String) (series : List Value)
    (m : ColumnMapping) (h : typeInference name series = some m) :
    m.detection_method = "type_inference" := by
  unfold typeInference at h
  dsimp only at h
  repeat' split at h
  all_goals
    first
      | (injection h with h2; rw [← h2])
      | simp at h

/-- Helper: no auto-detected mapping carries method `manual`. -/
theorem autoDetect_not_manual (df : DataFrame) :
    ∀ c m, (c, m) ∈ (autoDetectMappings df).mappings →
      m.detection_method ≠ "manual" := by
  unfold autoDetectMappings
  dsimp only
  have haux : ∀ (cols : List (String × List Value))
      (acc : List (String × ColumnMapping)),
      (∀ c m, (c, m) ∈ acc → m.detection_method ≠ "manual") →
      ∀ c m, (c, m) ∈ cols.foldl
        (fun acc c =>
          match keywordMatch c.1 c.2 with
          | some m => acc ++ [(c.1, m)]
          | none =>
              match typeInference c.1 c.2 with
              | some m => acc ++ [(c.1, m)]
              | none => acc) acc →
      m.detection_method ≠ "manual" := by
    intro cols
    induction cols with
    | nil => intro acc hacc c m h; exact hacc c m h
    | cons col rest ih =>
        intro acc hacc c m h
        rw [List.foldl_cons] at h
        refine ih _ ?_ c m h
        intro c2 m2 h2
        split at h2
        · rename_i mm hmm
          rcases List.mem_append.mp h2 with h3 | h3
          · exact hacc _ _ h3
          · have h4 := List.mem_singleton.mp h3
            injection h4 with h5 h6
            subst h6
            rcases keywordMatch_method _ _ _ hmm with h7 | h7 <;> simp [h7]
        · split at h2
          · rename_i mm hmm
            rcases List.mem_append.mp h2 with h3 | h3
            · exact hacc _ _ h3
            · have h4 := List.mem_singleton.mp h3
              injection h4 with h5 h6
              subst h6
              simp [typeInference_method _ _ _ hmm]
          · exact hacc _ _ h2
  intro c m h
  exact haux df.cols [] (fun c2 m2 h2 => absurd h2 (List.not_mem_nil _)) c m h

/-- **C7.** Every mapping produced with method `manual` (manual mode via
`_apply_manual_mappings`, hybrid mode via `_merge_manual_mappings` over
the auto result) has confidence exactly 1 and a role that parses from
exactly the role string the caller supplied for that column; a manual
role string that is not a valid role name produces a warning naming the
column and the role, and (both functions being total) never raises. -/
theorem manual_mapping_roundtrip (df : DataFrame)
    (manual : List (String × String)) :
    (∀ c m, (c, m) ∈ (applyManualMappings df manual).mappings →
        m.confidence = 1 ∧ m.detection_method = "manual"
        ∧ ∃ p ∈ manual, p.1 = c ∧ ColumnType.ofString p.2 = some m.target_type)
    ∧ (∀ c r, (c, r) ∈ manual → df.columns.contains c = true →
        ColumnType.ofString r = none →
        unknownTypeWarning r c ∈ (applyManualMappings df manual).warnings)
    ∧ (∀ c m, (c, m) ∈ (mergeManualMappings (autoDetectMappings df) manual).mappings →
        m.detection_method = "manual" →
        m.confidence = 1
        ∧ ∃ p ∈ manual, p.1 = c ∧ ColumnType.ofString p.2 = some m.target_type)
    ∧ (∀ c r, (c, r) ∈ manual → ColumnType.ofString r = none →
        unknownTypeWarning r c ∈
          (mergeManualMappings (autoDetectMappings df) manual).warnings) := by
  refine ⟨?_, ?_, ?_, ?_⟩
  · intro c m h
    unfold applyManualMappings at h
    rcases applyManual_fold_mem df manual (fun _ _ => False) {}
        (fun c2 m2 h2 => absurd h2 (List.not_mem_nil _)) c m h with h3 | h3
    · exact absurd h3 not_false
    · rcases h3 with ⟨p, hp, h1, h2, h3, h4⟩
      exact ⟨h3, h4, p, hp, h1, h2⟩
  · intro c r hmem hc hr
    exact applyManual_fold_warn df manual {} c r hmem hc hr
  · intro c m h hmethod
    unfold mergeManualMappings at h
    rcases mergeManual_fold_mem manual
        (fun c2 m2 => m2.detection_method ≠ "manual") (autoDetectMappings df)
        (autoDetect_not_manual df) c m h with h3 | h3
    · exact absurd hmethod h3
    · rcases h3 with ⟨p, hp, h1, h2, h3, h4⟩
      exact ⟨h3, p, hp, h1, h2⟩
  · intro c r hmem hr
    exact mergeManual_fold_warn manual (autoDetectMappings df) c r hmem hr

/-- **C7 witness.** A concrete one-column frame with one valid manual
role (`tenure`, mapped at confidence 1) and one invalid one (`bogus`,
reported as a warning naming the column and role). -/
theorem manual_mapping_roundtrip_witness :
    (∃ p ∈ [("A", "tenure"), ("A", "bogus")], p.1 = "A"
      ∧ ColumnType.ofString p.2 = some ColumnType.TENURE)
    ∧ unknownTypeWarning "bogus" "A" ∈
        (applyManualMappings ⟨[("A", [Value.num 1])]⟩
          [("A", "tenure"), ("A", "bogus")]).warnings := by
  constructor
  · have h := (manual_mapping_roundtrip ⟨[("A", [Value.num 1])]⟩
      [("A", "tenure"), ("A", "bogus")]).1 "A"
      { source_column := "A", target_type := .TENURE, confidence := 1,
        detection_method := "manual", notes := "User-provided mapping" }
      (by decide)
    exact h.2.2
  · exact (manual_mapping_roundtrip ⟨[("A", [Value.num 1])]⟩
      [("A", "tenure"), ("A", "bogus")]).2.1 "A" "bogus" (by decide) (by decide)
      (by decide)

/-- Helper: a nonempty keyword always scores positively. -/
theorem kwScore_pos (norm : List Char) (kw : String) (h : kw ≠ "") :
    0 < kwScore norm kw := by
  have hlen : 0 < kw.length := by
    obtain ⟨l⟩ := kw
    have hl : l ≠ [] := fun hl => h (by rw [hl])
    exact List.length_pos.mpr hl
  unfold kwScore
  split
  · norm_num
  · rw [Rat.mkRat_eq_div]
    apply div_pos
    · exact_mod_cast hlen
    · have h2 : 0 < max norm.length kw.length :=
        lt_of_lt_of_le hlen (le_max_right norm.length kw.length)
      exact_mod_cast h2

/-- Helper: the best-tracking loop of `_keyword_match` computes the
maximum score over the considered keywords, returns something exactly
when a keyword was considered (all catalog keywords being nonempty), and
any fresh best it returns is a considered keyword scored by `kwScore`. -/
theorem scanAux_spec (norm : List Char) :
    ∀ (l : List (ColumnType × String)) (best : Option (ColumnType × String × ℚ)),
      (∀ p ∈ l, p.2 ≠ "") →
      scoreOpt (scanAux norm l best) =
        ((l.filter (fun p => kwConsidered norm p.2)).map
          (fun p => kwScore norm p.2)).foldl max (scoreOpt best)
      ∧ (scanAux norm l best = none ↔
          best = none ∧ l.filter (fun p => kwConsidered norm p.2) = [])
      ∧ (∀ b, scanAux norm l best = some b →
          ((b.1, b.2.1) ∈ l.filter (fun p => kwConsidered norm p.2)
            ∧ kwScore norm b.2.1 = b.2.2)
          ∨ best = some b) := by
  intro l
  induction l with
  | nil =>
      intro best hl
      refine ⟨rfl, ?_, ?_⟩
      · simp [scanAux]
      · intro b h
        exact Or.inr h
  | cons p rest ih =>
      intro best hl
      have hlrest : ∀ q ∈ rest, q.2 ≠ "" :=
        fun q hq => hl q (List.mem_cons_of_mem p hq)
      have hpne : p.2 ≠ "" := hl p (List.mem_cons_self p rest)
      by_cases hc : kwConsidered norm p.2 = true
      · have hfilter : (p :: rest).filter (fun q => kwConsidered norm q.2) =
            p :: rest.filter (fun q => kwConsidered norm q.2) :=
          List.filter_cons_of_pos hc
        by_cases hgt : kwScore norm p.2 > scoreOpt best
        · have hstep : scanAux norm (p :: rest) best =
              scanAux norm rest (some (p.1, p.2, kwScore norm p.2)) := by
            cases best with
            | none =>
                have hgt2 : kwScore norm p.2 > 0 := by
                  simpa [scoreOpt] using hgt
                simp only [scanAux, hc, if_true]
                rw [if_pos hgt2]
            | some b0 =>
                have hgt2 : kwScore norm p.2 > b0.2.2 := by
                  simpa [scoreOpt] using hgt
                simp only [scanAux, hc, if_true]
                rw [if_pos hgt2]
          obtain ⟨ih1, ih2, ih3⟩ :=
            ih (some (p.1, p.2, kwScore norm p.2)) hlrest
          refine ⟨?_, ?_, ?_⟩
          · rw [hstep, ih1, hfilter, List.map_cons, List.foldl_cons,
              max_eq_right (le_of_lt hgt)]
            rfl
          · rw [hstep, hfilter]
            constructor
            · intro h
              rcases ih2.mp h with ⟨h2, _⟩
              exact absurd h2 (by simp)
            · intro h
              exact absurd h.2 (by simp)
          · intro b h
            rw [hstep] at h
            rw [hfilter]
            rcases ih3 b h with ⟨h2, h3⟩ | h2
            · exact Or.inl ⟨List.mem_cons_of_mem p h2, h3⟩
            · injection h2 with h3
              refine Or.inl ⟨?_, ?_⟩
              · rw [← h3]
                exact List.mem_cons_self p _
              · rw [← h3]
        · have hstep : scanAux norm (p :: rest) best =
              scanAux norm rest best := by
            cases best with
            | none =>
                have hgt2 : ¬(kwScore norm p.2 > 0) := by
                  simpa [scoreOpt] using hgt
                simp only [scanAux, hc, if_true]
                rw [if_neg hgt2]
            | some b0 =>
                have hgt2 : ¬(kwScore norm p.2 > b0.2.2) := by
                  simpa [scoreOpt] using hgt
                simp only [scanAux, hc, if_true]
                rw [if_neg hgt2]
          have hbest : best ≠ none := by
            intro hb
            rw [hb] at hgt
            exact hgt (by simpa [scoreOpt] using kwScore_pos norm p.2 hpne)
          obtain ⟨ih1, ih2, ih3⟩ := ih best hlrest
          refine ⟨?_, ?_, ?_⟩
          · rw [hstep, ih1, hfilter, List.map_cons, List.foldl_cons,
              max_eq_left (not_lt.mp hgt)]
          · rw [hstep, hfilter]
            constructor
            · intro h
              exact absurd (ih2.mp h).1 hbest
            · intro h
              exact absurd h.1 hbest
          · intro b h
            rw [hstep] at h
            rw [hfilter]
            rcases ih3 b h with ⟨h2, h3⟩ | h2
            · exact Or.inl ⟨List.mem_cons_of_mem p h2, h3⟩
            · exact Or.inr h2
      · have hfilter : (p :: rest).filter (fun q => kwConsidered norm q.2) =
            rest.filter (fun q => kwConsidered norm q.2) :=
          List.filter_cons_of_neg (by simpa using hc)
        have hstep : scanAux norm (p :: rest) best = scanAux norm rest best := by
          simp only [scanAux]
          rw [if_neg hc]
        obtain ⟨ih1, ih2, ih3⟩ := ih best hlrest
        refine ⟨?_, ?_, ?_⟩
        · rw [hstep, ih1, hfilter]
        · rw [hstep, hfilter]
          exact ih2
        · intro b h
          rw [hstep] at h
          rw [hfilter]
          exact ih3 b h

/-- **C6.** Auto-mode keyword matching normalizes the column name by
lowercasing and mapping `_`/`-` to spaces; every considered (nonempty)
keyword scores `len(keyword) / max(len(keyword), len(normalized_name))`,
exactly 1 on an exact match; the kept role carries the highest score
among the considered keywords, which is positive, and the resulting
mapping's confidence is `min(score, 0.95)`. -/
theorem keyword_match_scoring (name : String) (series : List Value) :
    normalizeName name =
      (lowerChars name).map (fun c => if c = '_' ∨ c = '-' then ' ' else c)
    ∧ (∀ kw : String, kw ≠ "" →
        kwScore (normalizeName name) kw =
          (kw.length : ℚ) / (max (normalizeName name).length kw.length : ℚ))
    ∧ (∀ kw : String, kw.data = normalizeName name →
        kwScore (normalizeName name) kw = 1)
    ∧ (match keywordScan name with
      | some b =>
          b.2.2 = bestKeywordScore (normalizeName name)
          ∧ 0 < b.2.2
          ∧ (b.1, b.2.1) ∈ consideredList (normalizeName name)
          ∧ kwScore (normalizeName name) b.2.1 = b.2.2
      | none => consideredList (normalizeName name) = [])
    ∧ (∀ m : ColumnMapping, keywordMatch name series = some m →
        m.detection_method = "keyword" →
        m.confidence = min (bestKeywordScore (normalizeName name)) (95/100)) := by
  have h95 : mkRat 95 100 = (95/100 : ℚ) := by
    rw [Rat.mkRat_eq_div]
    norm_num
  have hcat : ∀ p ∈ schemaKeywordPairs, p.2 ≠ "" := by decide
  obtain ⟨hs1, hs2, hs3⟩ := scanAux_spec (normalizeName name) schemaKeywordPairs none hcat
  have hscan : match keywordScan name with
      | some b =>
          b.2.2 = bestKeywordScore (normalizeName name)
          ∧ 0 < b.2.2
          ∧ (b.1, b.2.1) ∈ consideredList (normalizeName name)
          ∧ kwScore (normalizeName name) b.2.1 = b.2.2
      | none => consideredList (normalizeName name) = [] := by
    cases hk : keywordScan name with
    | none =>
        unfold keywordScan at hk
        exact (hs2.mp hk).2
    | some b =>
        unfold keywordScan at hk
        have hmem := hs3 b hk
        rcases hmem with ⟨hmem, hkw⟩ | hmem
        · have hb2 : scoreOpt (some b) = bestKeywordScore (normalizeName name) := by
            rw [← hk, hs1]
            rfl
          refine ⟨hb2, ?_, hmem, hkw⟩
          · rw [← hkw]
            apply kwScore_pos
            have := List.mem_filter.mp hmem
            exact hcat (b.1, b.2.1) this.1
        · exact absurd hmem (by simp)
  refine ⟨rfl, ?_, ?_, hscan, ?_⟩
  · intro kw hne
    unfold kwScore
    split
    · rename_i heq
      have hlen : kw.length = (normalizeName name).length := by
        rw [← heq]
        rfl
      rw [← hlen, max_self]
      have h0 : (kw.length : ℚ) ≠ 0 := by
        have : 0 < kw.length := by
          obtain ⟨l⟩ := kw
          have hl : l ≠ [] := fun hl => hne (by rw [hl])
          exact List.length_pos.mpr hl
        exact_mod_cast this.ne.symm
      rw [div_self h0]
    · rw [Rat.mkRat_eq_div]
      push_cast
      rfl
  · intro kw heq
    unfold kwScore
    rw [if_pos heq]
  · intro m hm hmethod
    unfold keywordMatch at hm
    split at hm
    · rename_i b hb
      rw [hb] at hscan
      injection hm with hm2
      rw [← hm2]
      dsimp only
      have h1 : b = bestKeywordScore (normalizeName name) := hscan.1
      rw [h1, h95]
    · exfalso
      unfold valueHintFallback at hm
      dsimp only at hm
      split at hm
      · split at hm
        · injection hm with hm2
          rw [← hm2] at hmethod
          simp at hmethod
        · simp at hm
      · simp at hm

/-- **C6 witness.** Concrete instances: the considered keyword `monthly`
against `MonthlyCharges` scores by the length formula (7/14 = 0.5), an
exact match (`tenure`) scores exactly 1, and the kept mapping for
`MonthlyCharges` has confidence `min(best score, 0.95)`. -/
theorem keyword_match_scoring_witness :
    kwScore (normalizeName "MonthlyCharges") "monthly" =
      (("monthly".length : ℚ)) /
        (max (normalizeName "MonthlyCharges").length "monthly".length : ℚ)
    ∧ kwScore (normalizeName "tenure") "tenure" = 1
    ∧ ({ source_column := "MonthlyCharges", target_type := .COST_MONTHLY,
         confidence := mkRat 1 2, detection_method := "keyword",
         notes := "Matched keyword: monthly" } : ColumnMapping).confidence =
        min (bestKeywordScore (normalizeName "MonthlyCharges")) (95/100) :=
  ⟨(keyword_match_scoring "MonthlyCharges" []).2.1 "monthly" (by decide),
   (keyword_match_scoring "tenure" []).2.2.1 "tenure" (by decide),
   (keyword_match_scoring "MonthlyCharges" []).2.2.2.2 _ (by decide) rfl⟩

/-- **C5.** For every validation call, the returned result has
`is_valid = false` exactly when its error list is non-empty; the steps
that append only warnings (recommended-role advice in non-strict mode,
target warnings, quality findings, the small-dataset notice) never change
`is_valid`. -/
theorem validation_error_invariant (df : DataFrame)
    (mr : Option MappingResult) (strict : Bool) :
    (validate df mr strict).is_valid = (validate df mr strict).errors.isEmpty := by
  have hAddE : ∀ (r : ValidationResult) (e : String),
      (addError r e).is_valid = (addError r e).errors.isEmpty := by
    intro r e
    simp [addError]
  have hAddW : ∀ (r : ValidationResult) (w : String),
      r.is_valid = r.errors.isEmpty →
      (addWarning r w).is_valid = (addWarning r w).errors.isEmpty := by
    intro r w h
    simpa [addWarning] using h
  have hReq : ∀ (mt : List ColumnType) (l : List ColumnType)
      (r : ValidationResult), r.is_valid = r.errors.isEmpty →
      (l.foldl (checkRequiredStep mt) r).is_valid =
        (l.foldl (checkRequiredStep mt) r).errors.isEmpty := by
    intro mt l
    induction l with
    | nil => intro r h; exact h
    | cons t rest ih =>
        intro r h
        rw [List.foldl_cons]
        apply ih
        unfold checkRequiredStep
        split
        · exact h
        · exact hAddE r _
  have hRec : ∀ (mt : List ColumnType) (l : List ColumnType)
      (r : ValidationResult), r.is_valid = r.errors.isEmpty →
      (l.foldl (checkRecommendedStep mt strict) r).is_valid =
        (l.foldl (checkRecommendedStep mt strict) r).errors.isEmpty := by
    intro mt l
    induction l with
    | nil => intro r h; exact h
    | cons t rest ih =>
        intro r h
        rw [List.foldl_cons]
        apply ih
        unfold checkRecommendedStep
        split
        · exact h
        · split
          · exact hAddE r _
          · exact hAddW r _ h
  have hTv : ∀ (r : ValidationResult) (tv : List String × List String),
      r.is_valid = r.errors.isEmpty →
      (applyTargetValidation r tv).is_valid =
        (applyTargetValidation r tv).errors.isEmpty := by
    intro r tv h
    unfold applyTargetValidation
    dsimp only
    split
    · rename_i hemp
      rw [List.isEmpty_iff] at hemp
      simpa [hemp] using h
    · rename_i hemp
      rw [List.isEmpty_iff] at hemp
      simp [List.isEmpty_iff, List.append_eq_nil, hemp]
  have h3 : ∀ (r : ValidationResult), r.is_valid = r.errors.isEmpty →
      ∀ q : ℚ × List String,
      ({ r with data_quality_score := q.1,
                warnings := r.warnings ++ q.2 } : ValidationResult).is_valid =
      ({ r with data_quality_score := q.1,
                warnings := r.warnings ++ q.2 } : ValidationResult).errors.isEmpty := by
    intro r h q
    simpa using h
  unfold validate
  dsimp only
  split
  · apply hAddW
    apply h3
    split
    · apply hTv
      apply hRec
      apply hReq
      rfl
    · apply hRec
      apply hReq
      rfl
  · apply h3
    split
    · apply hTv
      apply hRec
      apply hReq
      rfl
    · apply hRec
      apply hReq
      rfl

set_option maxRecDepth 100000 in
/-- **C3 counterexample.** On a concrete dataset satisfying the
scenario's hypotheses — the five named columns, 200 rows, no missing
values, `Churn ∈ {Yes, No}` — auto-mode mapping assigns `MonthlyCharges`
the `cost_monthly` role at confidence 1/2 (`len("monthly")/14`), below
the claimed 0.7 floor. -/
theorem clean_scenario_confidence_counterexample :
    scenarioFrame.columns =
      ["CustomerID", "tenure", "MonthlyCharges", "Contract", "Churn"]
    ∧ scenarioFrame.nRows = 200
    ∧ scenarioFrame.totalMissing = 0
    ∧ (∀ v ∈ scenarioFrame.col "Churn", v = Value.str "Yes" ∨ v = Value.str "No")
    ∧ (mapColumns scenarioFrame .auto).mappings.lookup "MonthlyCharges" =
        some { source_column := "MonthlyCharges",
               target_type := ColumnType.COST_MONTHLY,
               confidence := mkRat 1 2, detection_method := "keyword",
               notes := "Matched keyword: monthly" }
    ∧ ¬((mkRat 1 2 : ℚ) ≥ 7/10) := by
  refine ⟨rfl, rfl, ?_, ?_, ?_, ?_⟩
  · decide
  · decide
  · decide
  · rw [show (mkRat 1 2 : ℚ) = 1/2 from by rw [Rat.mkRat_eq_div]; norm_num]
    norm_num

/-- **C3 (amended).** For any dataset with columns
`CustomerID, tenure, MonthlyCharges, Contract, Churn`, 200 rows, no
missing values and `Churn ∈ {Yes, No}`: auto-mode mapping assigns the
roles `id, tenure, cost_monthly, contract, target` respectively;
`CustomerID`, `tenure`, `Contract` and `Churn` map at confidence 0.95
but `MonthlyCharges` maps at confidence 1/2 (not ≥ 0.7); and schema
validation returns `is_valid = true` with an empty error list. -/
theorem clean_scenario_amended (v1 v2 v3 v4 v5 : List Value)
    (h1 : v1.length = 200)
    (h5 : v5.length = 200)
    (hnomiss : ∀ v ∈ v1 ++ v2 ++ v3 ++ v4 ++ v5, v.isna = false)
    (hchurn : ∀ v ∈ v5, v = Value.str "Yes" ∨ v = Value.str "No") :
    (mapColumns (scenarioShape v1 v2 v3 v4 v5) .auto).mappings.map
        (fun p => (p.1, p.2.target_type)) =
      [("CustomerID", ColumnType.ID), ("tenure", ColumnType.TENURE),
       ("MonthlyCharges", ColumnType.COST_MONTHLY),
       ("Contract", ColumnType.CONTRACT), ("Churn", ColumnType.TARGET)]
    ∧ (∀ c m, (c, m) ∈ (mapColumns (scenarioShape v1 v2 v3 v4 v5) .auto).mappings →
        c ≠ "MonthlyCharges" → m.confidence = mkRat 95 100)
    ∧ (∀ m, ("MonthlyCharges", m) ∈
          (mapColumns (scenarioShape v1 v2 v3 v4 v5) .auto).mappings →
        m.confidence = mkRat 1 2)
    ∧ (validate (scenarioShape v1 v2 v3 v4 v5) none false).is_valid = true
    ∧ (validate (scenarioShape v1 v2 v3 v4 v5) none false).errors = [] := by
  have hm1 : keywordMatch "CustomerID" v1 = some ⟨"CustomerID", ColumnType.ID,
      mkRat 95 100, "keyword", "Matched keyword: customerid"⟩ := by
    unfold keywordMatch
    rw [show keywordScan "CustomerID" =
      some (ColumnType.ID, "customerid", 1) from by decide]
    dsimp only
    rw [show min (1 : ℚ) (mkRat 95 100) = mkRat 95 100 from by decide]
    decide
  have hm2 : keywordMatch "tenure" v2 = some ⟨"tenure", ColumnType.TENURE,
      mkRat 95 100, "keyword", "Matched keyword: tenure"⟩ := by
    unfold keywordMatch
    rw [show keywordScan "tenure" =
      some (ColumnType.TENURE, "tenure", 1) from by decide]
    dsimp only
    rw [show min (1 : ℚ) (mkRat 95 100) = mkRat 95 100 from by decide]
    decide
  have hm3 : keywordMatch "MonthlyCharges" v3 = some ⟨"MonthlyCharges",
      ColumnType.COST_MONTHLY, mkRat 1 2, "keyword",
      "Matched keyword: monthly"⟩ := by
    unfold keywordMatch
    rw [show keywordScan "MonthlyCharges" =
      some (ColumnType.COST_MONTHLY, "monthly", mkRat 1 2) from by decide]
    dsimp only
    rw [show min (mkRat 1 2) (mkRat 95 100) = mkRat 1 2 from by decide]
    decide
  have hm4 : keywordMatch "Contract" v4 = some ⟨"Contract",
      ColumnType.CONTRACT, mkRat 95 100, "keyword",
      "Matched keyword: contract"⟩ := by
    unfold keywordMatch
    rw [show keywordScan "Contract" =
      some (ColumnType.CONTRACT, "contract", 1) from by decide]
    dsimp only
    rw [show min (1 : ℚ) (mkRat 95 100) = mkRat 95 100 from by decide]
    decide
  have hm5 : keywordMatch "Churn" v5 = some ⟨"Churn", ColumnType.TARGET,
      mkRat 95 100, "keyword", "Matched keyword: churn"⟩ := by
    unfold keywordMatch
    rw [show keywordScan "Churn" =
      some (ColumnType.TARGET, "churn", 1) from by decide]
    dsimp only
    rw [show min (1 : ℚ) (mkRat 95 100) = mkRat 95 100 from by decide]
    decide
  have hmap : (mapColumns (scenarioShape v1 v2 v3 v4 v5) .auto).mappings =
      [("CustomerID", ⟨"CustomerID", ColumnType.ID, mkRat 95 100, "keyword",
          "Matched keyword: customerid"⟩),
       ("tenure", ⟨"tenure", ColumnType.TENURE, mkRat 95 100, "keyword",
          "Matched keyword: tenure"⟩),
       ("MonthlyCharges", ⟨"MonthlyCharges", ColumnType.COST_MONTHLY,
          mkRat 1 2, "keyword", "Matched keyword: monthly"⟩),
       ("Contract", ⟨"Contract", ColumnType.CONTRACT, mkRat 95 100, "keyword",
          "Matched keyword: contract"⟩),
       ("Churn", ⟨"Churn", ColumnType.TARGET, mkRat 95 100, "keyword",
          "Matched keyword: churn"⟩)] := by
    unfold mapColumns autoDetectMappings scenarioShape
    dsimp only
    rw [List.foldl_cons, List.foldl_cons, List.foldl_cons, List.foldl_cons,
      List.foldl_cons, List.foldl_nil]
    rw [hm1, hm2, hm3, hm4, hm5]
    rfl
  have hcount : v5.countP (fun v => v.isna) = 0 := by
    rw [List.countP_eq_zero]
    intro v hv
    rcases hchurn v hv with h | h <;> simp [h, Value.isna]
  have hcol : (scenarioShape v1 v2 v3 v4 v5).col "Churn" = v5 := rfl
  have htv : (validateTargetColumn
      ((scenarioShape v1 v2 v3 v4 v5).col "Churn")).1 = [] := by
    rw [hcol]
    unfold validateTargetColumn
    dsimp only
    rw [hcount]
    norm_num
  have happ : ∀ (r : ValidationResult) (tv : List String × List String),
      tv.1 = [] →
      (applyTargetValidation r tv).is_valid = r.is_valid
      ∧ (applyTargetValidation r tv).errors = r.errors := by
    intro r tv h
    unfold applyTargetValidation
    simp [h]
  have hn : (scenarioShape v1 v2 v3 v4 v5).nRows = 200 := by
    show v1.length = 200
    exact h1
  have htypes : (mapColumns (scenarioShape v1 v2 v3 v4 v5) .auto).mappings.map
      (fun p => p.2.target_type) =
      [ColumnType.ID, ColumnType.TENURE, ColumnType.COST_MONTHLY,
       ColumnType.CONTRACT, ColumnType.TARGET] := by
    rw [hmap]
    rfl
  have htc : ((mapColumns (scenarioShape v1 v2 v3 v4 v5) .auto).mappings.filter
      (fun p => p.2.target_type = ColumnType.TARGET)).map (·.1) = ["Churn"] := by
    rw [hmap]
    rfl
  refine ⟨?_, ?_, ?_, ?_, ?_⟩
  · rw [hmap]
    rfl
  · intro c m hm hne
    rw [hmap] at hm
    simp only [List.mem_cons, List.not_mem_nil, or_false, Prod.mk.injEq] at hm
    rcases hm with ⟨hc, hm⟩ | ⟨hc, hm⟩ | ⟨hc, hm⟩ | ⟨hc, hm⟩ | ⟨hc, hm⟩ <;>
      first
        | (exact absurd hc hne)
        | (rw [hm])
  · intro m hm
    rw [hmap] at hm
    simp only [List.mem_cons, List.not_mem_nil, or_false, Prod.mk.injEq] at hm
    rcases hm with ⟨hc, hm⟩ | ⟨hc, hm⟩ | ⟨hc, hm⟩ | ⟨hc, hm⟩ | ⟨hc, hm⟩ <;>
      first
        | (exact absurd hc.symm (by decide))
        | (rw [hm])
  · unfold validate
    dsimp only [Option.getD]
    rw [hn, if_neg (by norm_num : ¬(200 < 100)), htypes, htc]
    dsimp only [List.head?]
    rw [(happ _ _ htv).1]
    rfl
  · unfold validate
    dsimp only [Option.getD]
    rw [hn, if_neg (by norm_num : ¬(200 < 100)), htypes, htc]
    dsimp only [List.head?]
    rw [(happ _ _ htv).2]
    rfl

/-- **C3 witness.** The concrete 200-row frame satisfies the amended
scenario: validation passes with no errors. -/
theorem clean_scenario_amended_witness :
    (validate scenarioFrame none false).is_valid = true
    ∧ (validate scenarioFrame none false).errors = [] := by
  have hnm : ∀ v ∈ ((List.range 200).map (fun i => .str ("C" ++ toString i)))
      ++ List.replicate 200 (.num 12) ++ List.replicate 200 (.num 50)
      ++ List.replicate 200 (.str "Two year")
      ++ ((List.range 200).map
          (fun i => if i % 2 = 0 then .str "Yes" else .str "No")),
      Value.isna v = false := by
    intro v hv
    simp only [List.mem_append] at hv
    rcases hv with (((h | h) | h) | h) | h
    · obtain ⟨i, _, rfl⟩ := List.mem_map.mp h
      rfl
    · rw [List.eq_of_mem_replicate h]
      rfl
    · rw [List.eq_of_mem_replicate h]
      rfl
    · rw [List.eq_of_mem_replicate h]
      rfl
    · obtain ⟨i, _, rfl⟩ := List.mem_map.mp h
      split <;> rfl
  have hch : ∀ v ∈ ((List.range 200).map
      (fun i => if i % 2 = 0 then .str "Yes" else .str "No")),
      v = Value.str "Yes" ∨ v = Value.str "No" := by
    intro v hv
    obtain ⟨i, _, rfl⟩ := List.mem_map.mp hv
    split
    · exact Or.inl rfl
    · exact Or.inr rfl
  have h := clean_scenario_amended
    ((List.range 200).map (fun i => .str ("C" ++ toString i)))
    (List.replicate 200 (.num 12))
    (List.replicate 200 (.num 50))
    (List.replicate 200 (.str "Two year"))
    ((List.range 200).map (fun i => if i % 2 = 0 then .str "Yes" else .str "No"))
    (by simp) (by simp) hnm hch
  exact ⟨h.2.2.2.1, h.2.2.2.2⟩
